import Mathlib

/-!
Verification development for the dbccpp-tiny DBC parser.

This file gives a shallow embedding of the lexer (src/dbc_lexer.h), the
recursive-descent parser (src/dbc_parser.h) and the AST-to-model lowering
(src/dbcast2network.cpp, src/message_impl.cpp) of the dbccpp-tiny library,
and proves properties of that embedding.

Modelling conventions:
- std::string is modelled as Lean String (token values, names) or List Char
  (raw lexer input); the lexer walks a List Char suffix of the input.
- uint64_t is modelled as Nat (with an explicit mod 2^64 where std::stoull
  wraps); int64_t as Int; double as Rat.  std::stod is modelled as the exact
  rational value of the literal; IEEE rounding is not modelled, and no
  property proved here depends on rounding (only on sign application and on
  identity of values parsed from identical literals).
- C++ while-loops whose step cannot be expressed by structural recursion
  (the tokenize loop and the parser loops) take a fuel parameter and stop
  when the fuel runs out.  The entry points hand them (input length + 1)
  fuel; since every iteration of the corresponding C++ loop consumes at
  least one character respectively token, that fuel is never exhausted, and
  for the tokenizer this is proved (tokenizeLoop_fuel_stable below).
- Logging is a side effect only (LOG_INFO / LOG_WARNING) and is not
  modelled; neither are the per-signal warning flags computed by the
  (absent) signal implementation.
-/

namespace DbcTiny

/-! ## Character classification (std ctype, C locale, ASCII input) -/

def isspace (c : Char) : Bool :=
  c = ' ' || c = '\t' || c = '\n' || c = '\x0b' || c = '\x0c' || c = '\r'

def isdigit (c : Char) : Bool := '0' ≤ c && c ≤ '9'

def isalpha (c : Char) : Bool := ('a' ≤ c && c ≤ 'z') || ('A' ≤ c && c ≤ 'Z')

def isalnum (c : Char) : Bool := isalpha c || isdigit c

def isxdigit (c : Char) : Bool :=
  isdigit c || ('a' ≤ c && c ≤ 'f') || ('A' ≤ c && c ≤ 'F')

/-! ## Token kinds (enum class TokenType in src/dbc_lexer.h) -/

inductive TokenType where
  | INTEGER | FLOAT | STRING | IDENTIFIER
  | VERSION | NS_ | NS_DESC_ | BS_ | BU_ | BO_ | SG_ | CM_
  | BA_DEF_ | BA_DEF_DEF_ | BA_ | VAL_ | VAL_TABLE_ | SIG_GROUP_
  | SIG_VALTYPE_ | BO_TX_BU_ | CAT_DEF_ | CAT_ | FILTER
  | EV_DATA_ | ENVVAR_DATA_ | SGTYPE_ | SGTYPE_VAL_ | BA_DEF_SGTYPE_
  | BA_SGTYPE_ | SIG_TYPE_REF_ | SIGTYPE_VALTYPE_
  | BA_DEF_REL_ | BA_REL_ | BA_DEF_DEF_REL_
  | BU_SG_REL_ | BU_EV_REL_ | BU_BO_REL_ | SG_MUL_VAL_ | EV_
  | COLON | SEMICOLON | COMMA | AT | PLUS | MINUS | PIPE
  | LPAREN | RPAREN | LBRACKET | RBRACKET
  | MUX_M | MUX_m
  | END_OF_FILE
  | UNKNOWN
  deriving DecidableEq, Repr

/-- Token record (struct Token in src/dbc_lexer.h). -/
structure Token where
  type : TokenType
  value : String
  line : Nat
  column : Nat
  deriving DecidableEq, Repr

/-! ## Lexer (class DBCLexer in src/dbc_lexer.h)

The C++ lexer keeps (input_, pos_, line_, column_); we carry the remaining
input suffix together with line and column.  advance() maps to consuming the
head character, bumping line/column as the source does. -/

/-- Line update of advance(): a newline moves to the next line. -/
def advLine (ch : Char) (l : Nat) : Nat := if ch = '\n' then l + 1 else l

/-- Column update of advance(): a newline resets the column to 1. -/
def advCol (ch : Char) (c : Nat) : Nat := if ch = '\n' then 1 else c + 1

/-- Head character, with the '\0' that peek() returns past the end. -/
def headD0 (cs : List Char) : Char := cs.headD '\x00'

/-- Loop of skipWhitespace(): while isspace(peek()) advance(). -/
def skipWhitespace : List Char → Nat → Nat → List Char × Nat × Nat
  | [], l, c => ([], l, c)
  | ch :: rest, l, c =>
    if isspace ch then skipWhitespace rest (advLine ch l) (advCol ch c)
    else (ch :: rest, l, c)

/-- Single-line comment tail: advance until peek() is a newline or '\0'. -/
def skipLineComment : List Char → Nat → Nat → List Char × Nat × Nat
  | [], l, c => ([], l, c)
  | ch :: rest, l, c =>
    if ch = '\n' || ch = '\x00' then (ch :: rest, l, c)
    else skipLineComment rest (advLine ch l) (advCol ch c)

/-- Block comment tail: advance until the closing star-slash, which is also
consumed, or until peek() is '\0'. -/
def skipBlockComment : List Char → Nat → Nat → List Char × Nat × Nat
  | [], l, c => ([], l, c)
  | ch :: rest, l, c =>
    if ch = '\x00' then (ch :: rest, l, c)
    else if ch = '*' && headD0 rest = '/' then (rest.tail, l, c + 2)
    else skipBlockComment rest (advLine ch l) (advCol ch c)

/-- skipComment(): dispatch on peek() and peek(1).  At most one comment is
skipped per call. -/
def skipComment (cs : List Char) (l c : Nat) : List Char × Nat × Nat :=
  if headD0 cs = '/' && headD0 cs.tail = '/' then
    skipLineComment cs.tail.tail l (c + 2)
  else if headD0 cs = '/' && headD0 cs.tail = '*' then
    skipBlockComment cs.tail.tail l (c + 2)
  else (cs, l, c)

/-- Generic scanning loop: while p(peek()) value += advance().  Returns the
scanned characters, the remaining input and the updated position. -/
def readWhile (p : Char → Bool) : List Char → Nat → Nat →
    List Char × List Char × Nat × Nat
  | [], l, c => ([], [], l, c)
  | ch :: rest, l, c =>
    if p ch then
      let w := readWhile p rest (advLine ch l) (advCol ch c)
      (ch :: w.1, w.2.1, w.2.2.1, w.2.2.2)
    else ([], ch :: rest, l, c)

/-- Fractional part step of readNumber(): a decimal point followed by a digit
is consumed together with the digit run; otherwise nothing is consumed.
Returns (is_float became true, consumed text, rest, line, column). -/
def readFrac (cs : List Char) (l c : Nat) :
    Bool × List Char × List Char × Nat × Nat :=
  if headD0 cs = '.' && isdigit (headD0 cs.tail) then
    let w := readWhile isdigit cs.tail l (c + 1)
    (true, '.' :: w.1, w.2.1, w.2.2.1, w.2.2.2)
  else (false, [], cs, l, c)

/-- Exponent step of readNumber(): an e or E attached only when followed by a
digit, or by a sign and then a digit. -/
def readExp (cs : List Char) (l c : Nat) :
    Bool × List Char × List Char × Nat × Nat :=
  if (headD0 cs = 'e' || headD0 cs = 'E') &&
     (isdigit (headD0 cs.tail) ||
      ((headD0 cs.tail = '+' || headD0 cs.tail = '-') &&
        isdigit (headD0 cs.tail.tail))) then
    if headD0 cs.tail = '+' || headD0 cs.tail = '-' then
      let w := readWhile isdigit cs.tail.tail l (c + 2)
      (true, headD0 cs :: headD0 cs.tail :: w.1, w.2.1, w.2.2.1, w.2.2.2)
    else
      let w := readWhile isdigit cs.tail l (c + 1)
      (true, headD0 cs :: w.1, w.2.1, w.2.2.1, w.2.2.2)
  else (false, [], cs, l, c)

/-- Decimal (non-hex) tail of readNumber(): optional minus, digit run,
optional fraction, optional exponent. -/
def readNumberDec (cs : List Char) (l c : Nat) : Token × List Char × Nat × Nat :=
  let sgn : List Char := if headD0 cs = '-' then ['-'] else []
  let i1 := if headD0 cs = '-' then cs.tail else cs
  let c1 := if headD0 cs = '-' then c + 1 else c
  let w := readWhile isdigit i1 l c1
  let f := readFrac w.2.1 w.2.2.1 w.2.2.2
  let e := readExp f.2.2.1 f.2.2.2.1 f.2.2.2.2
  (Token.mk (if f.1 || e.1 then .FLOAT else .INTEGER)
     (String.mk (sgn ++ w.1 ++ f.2.1 ++ e.2.1)) l c,
   e.2.2.1, e.2.2.2.1, e.2.2.2.2)

/-- readNumber(): hex literals first, else the decimal tail. -/
def readNumber (cs : List Char) (l c : Nat) : Token × List Char × Nat × Nat :=
  if headD0 cs = '0' && (headD0 cs.tail = 'x' || headD0 cs.tail = 'X') then
    let w := readWhile isxdigit cs.tail.tail l (c + 2)
    (Token.mk .INTEGER (String.mk ('0' :: headD0 cs.tail :: w.1)) l c,
     w.2.1, w.2.2.1, w.2.2.2)
  else readNumberDec cs l c

/-- Body loop of readString(): consume until the closing quote or '\0',
applying the backslash-quote and backslash-backslash escapes. -/
def readStringBody : List Char → Nat → Nat → List Char × List Char × Nat × Nat
  | [], l, c => ([], [], l, c)
  | '\\' :: '"' :: rest, l, c =>
    let w := readStringBody rest l (c + 2)
    ('"' :: w.1, w.2.1, w.2.2.1, w.2.2.2)
  | '\\' :: '\\' :: rest, l, c =>
    let w := readStringBody rest l (c + 2)
    ('\\' :: w.1, w.2.1, w.2.2.1, w.2.2.2)
  | ch :: rest, l, c =>
    if ch = '"' || ch = '\x00' then ([], ch :: rest, l, c)
    else
      let w := readStringBody rest (advLine ch l) (advCol ch c)
      (ch :: w.1, w.2.1, w.2.2.1, w.2.2.2)

/-- readString(): skip the opening quote, scan the body, consume the closing
quote when present. -/
def readString (cs : List Char) (l c : Nat) : Token × List Char × Nat × Nat :=
  if headD0 cs = '"' then
    let w := readStringBody cs.tail l (c + 1)
    if headD0 w.2.1 = '"' then
      (Token.mk .STRING (String.mk w.1) l c, w.2.1.tail, w.2.2.1, w.2.2.2 + 1)
    else
      (Token.mk .STRING (String.mk w.1) l c, w.2.1, w.2.2.1, w.2.2.2)
  else (Token.mk .STRING "" l c, cs, l, c)

/-- The m-pattern check at the end of readIdentifier(): an identifier of the
form m digits or m digits M becomes MUX_m, anything else stays IDENTIFIER. -/
def classifyMux (v : List Char) : TokenType :=
  let digitEnd := 1 + ((v.drop 1).takeWhile isdigit).length
  if 1 < digitEnd then
    if digitEnd = v.length ∨ (digitEnd = v.length - 1 ∧ v.getD digitEnd ' ' = 'M')
    then .MUX_m else .IDENTIFIER
  else .IDENTIFIER

/-- Keyword classification chain of readIdentifier().  The bare identifier M
is deliberately not classified here; the parser decides from context. -/
def identType (v : List Char) : TokenType :=
  if v = "VERSION".toList then .VERSION
  else if v = "NS_".toList then .NS_
  else if v = "NS_DESC_".toList then .NS_DESC_
  else if v = "BS_".toList then .BS_
  else if v = "BU_".toList then .BU_
  else if v = "BO_".toList then .BO_
  else if v = "SG_".toList then .SG_
  else if v = "CM_".toList then .CM_
  else if v = "BA_DEF_".toList then .BA_DEF_
  else if v = "BA_DEF_DEF_".toList then .BA_DEF_DEF_
  else if v = "BA_".toList then .BA_
  else if v = "VAL_".toList then .VAL_
  else if v = "VAL_TABLE_".toList then .VAL_TABLE_
  else if v = "SIG_GROUP_".toList then .SIG_GROUP_
  else if v = "SIG_VALTYPE_".toList then .SIG_VALTYPE_
  else if v = "BO_TX_BU_".toList then .BO_TX_BU_
  else if v = "CAT_DEF_".toList then .CAT_DEF_
  else if v = "CAT_".toList then .CAT_
  else if v = "FILTER".toList then .FILTER
  else if v = "EV_DATA_".toList then .EV_DATA_
  else if v = "ENVVAR_DATA_".toList then .ENVVAR_DATA_
  else if v = "SGTYPE_".toList then .SGTYPE_
  else if v = "SGTYPE_VAL_".toList then .SGTYPE_VAL_
  else if v = "BA_DEF_SGTYPE_".toList then .BA_DEF_SGTYPE_
  else if v = "BA_SGTYPE_".toList then .BA_SGTYPE_
  else if v = "SIG_TYPE_REF_".toList then .SIG_TYPE_REF_
  else if v = "SIGTYPE_VALTYPE_".toList then .SIGTYPE_VALTYPE_
  else if v = "BA_DEF_REL_".toList then .BA_DEF_REL_
  else if v = "BA_REL_".toList then .BA_REL_
  else if v = "BA_DEF_DEF_REL_".toList then .BA_DEF_DEF_REL_
  else if v = "BU_SG_REL_".toList then .BU_SG_REL_
  else if v = "BU_EV_REL_".toList then .BU_EV_REL_
  else if v = "BU_BO_REL_".toList then .BU_BO_REL_
  else if v = "SG_MUL_VAL_".toList then .SG_MUL_VAL_
  else if v = "EV_".toList then .EV_
  else if 1 < v.length ∧ v.headD ' ' = 'm' then classifyMux v
  else .IDENTIFIER

/-- readIdentifier(): leading letter or underscore, then the alphanumeric or
underscore run, then classification. -/
def readIdentifier (cs : List Char) (l c : Nat) : Token × List Char × Nat × Nat :=
  if isalpha (headD0 cs) || headD0 cs = '_' then
    let ch := headD0 cs
    let w := readWhile (fun x => isalnum x || x = '_') cs.tail
      (advLine ch l) (advCol ch c)
    (Token.mk (identType (ch :: w.1)) (String.mk (ch :: w.1)) l c,
     w.2.1, w.2.2.1, w.2.2.2)
  else
    let w := readWhile (fun x => isalnum x || x = '_') cs l c
    (Token.mk (identType w.1) (String.mk w.1) l c, w.2.1, w.2.2.1, w.2.2.2)

/-- The skip sequence at the top of each tokenize() iteration: whitespace,
at most one comment, whitespace again. -/
def skipWsCommentWs (cs : List Char) (l c : Nat) : List Char × Nat × Nat :=
  let s1 := skipWhitespace cs l c
  let s2 := skipComment s1.1 s1.2.1 s1.2.2
  skipWhitespace s2.1 s2.2.1 s2.2.2

/-- Token dispatch of one tokenize() iteration, applied after the skips.
Returns none where the C++ loop breaks: empty input or a literal '\0'. -/
def nextTokenCore (cs : List Char) (l c : Nat) :
    Option Token × List Char × Nat × Nat :=
  match cs with
  | [] => (none, [], l, c)
  | ch :: rest =>
    if ch = '\x00' then (none, ch :: rest, l, c)
    else if ch = ':' then (some (Token.mk .COLON ":" l c), rest, l, c + 1)
    else if ch = ';' then (some (Token.mk .SEMICOLON ";" l c), rest, l, c + 1)
    else if ch = ',' then (some (Token.mk .COMMA "," l c), rest, l, c + 1)
    else if ch = '@' then (some (Token.mk .AT "@" l c), rest, l, c + 1)
    else if ch = '+' then (some (Token.mk .PLUS "+" l c), rest, l, c + 1)
    else if ch = '-' && !isdigit (headD0 rest) then
      (some (Token.mk .MINUS "-" l c), rest, l, c + 1)
    else if ch = '|' then (some (Token.mk .PIPE "|" l c), rest, l, c + 1)
    else if ch = '(' then (some (Token.mk .LPAREN "(" l c), rest, l, c + 1)
    else if ch = ')' then (some (Token.mk .RPAREN ")" l c), rest, l, c + 1)
    else if ch = '[' then (some (Token.mk .LBRACKET "[" l c), rest, l, c + 1)
    else if ch = ']' then (some (Token.mk .RBRACKET "]" l c), rest, l, c + 1)
    else if ch = '"' then
      let w := readString (ch :: rest) l c
      (some w.1, w.2.1, w.2.2.1, w.2.2.2)
    else if isdigit ch || (ch = '-' && isdigit (headD0 rest)) then
      let w := readNumber (ch :: rest) l c
      (some w.1, w.2.1, w.2.2.1, w.2.2.2)
    else if isalpha ch || ch = '_' then
      let w := readIdentifier (ch :: rest) l c
      (some w.1, w.2.1, w.2.2.1, w.2.2.2)
    else
      (some (Token.mk .UNKNOWN (String.mk [ch]) l c), rest, l, advCol ch c)

/-- One iteration of the tokenize() loop. -/
def nextToken (cs : List Char) (l c : Nat) :
    Option Token × List Char × Nat × Nat :=
  let s := skipWsCommentWs cs l c
  nextTokenCore s.1 s.2.1 s.2.2

/-- The tokenize() while-loop, with fuel.  Every iteration of the C++ loop
consumes at least one character (nextToken_some_length below), so with the
fuel handed out by tokenize the 0-fuel branch is unreachable
(tokenizeLoop_fuel_stable). -/
def tokenizeLoop : Nat → List Char → Nat → Nat → List Token × Nat × Nat
  | 0, _, l, c => ([], l, c)
  | Nat.succ fuel, cs, l, c =>
    if cs = [] then ([], l, c)
    else
      match nextToken cs l c with
      | (none, _, l3, c3) => ([], l3, c3)
      | (some t, r, l3, c3) =>
        let w := tokenizeLoop fuel r l3 c3
        (t :: w.1, w.2)

/-- tokenize(): run the loop from line 1, column 1 and append the final
END_OF_FILE token. -/
def tokenize (input : String) : List Token :=
  let w := tokenizeLoop (input.toList.length + 1) input.toList 1 1
  w.1 ++ [Token.mk .END_OF_FILE "" w.2.1 w.2.2]

/-! ## Numeric conversions (std::stoull, std::stoll, std::stod)

std::stoull/stoll parse an optional sign and then leading base-10 digits,
stopping at the first non-digit (so the hex literal 0x10 converts to 0 where
the parser uses base 10); stoull of a negative literal wraps modulo 2^64.
std::stod is modelled by the exact rational value of the literal (decimal or
hex integer form, with optional fraction and exponent); IEEE rounding is not
modelled. -/

def digitsToNat (ds : List Char) : Nat :=
  ds.foldl (fun a ch => a * 10 + (ch.toNat - 48)) 0

def hexDigitVal (ch : Char) : Nat :=
  if isdigit ch then ch.toNat - 48
  else if 'a' ≤ ch && ch ≤ 'f' then ch.toNat - 87
  else ch.toNat - 55

def hexToNat (ds : List Char) : Nat :=
  ds.foldl (fun a ch => a * 16 + hexDigitVal ch) 0

def stoullM (s : String) : Nat :=
  match s.toList with
  | '-' :: r => (2 ^ 64 - digitsToNat (r.takeWhile isdigit) % 2 ^ 64) % 2 ^ 64
  | '+' :: r => digitsToNat (r.takeWhile isdigit) % 2 ^ 64
  | r => digitsToNat (r.takeWhile isdigit) % 2 ^ 64

def stollM (s : String) : Int :=
  match s.toList with
  | '-' :: r => -(digitsToNat (r.takeWhile isdigit) : Int)
  | '+' :: r => (digitsToNat (r.takeWhile isdigit) : Int)
  | r => (digitsToNat (r.takeWhile isdigit) : Int)

def expValM (cs : List Char) : Int :=
  match cs with
  | '-' :: r => -(digitsToNat (r.takeWhile isdigit) : Int)
  | '+' :: r => (digitsToNat (r.takeWhile isdigit) : Int)
  | r => (digitsToNat (r.takeWhile isdigit) : Int)

def stodMagnitude (cs : List Char) : Rat :=
  if headD0 cs = '0' && (headD0 cs.tail = 'x' || headD0 cs.tail = 'X') then
    (hexToNat (cs.tail.tail.takeWhile isxdigit) : Rat)
  else
    let ip := cs.takeWhile isdigit
    let rest := cs.dropWhile isdigit
    let fp := if headD0 rest = '.' then rest.tail.takeWhile isdigit else []
    let rest2 := if headD0 rest = '.' then rest.tail.dropWhile isdigit else rest
    let ex : Int :=
      if headD0 rest2 = 'e' || headD0 rest2 = 'E' then expValM rest2.tail else 0
    ((digitsToNat ip : Rat) + (digitsToNat fp : Rat) / ((10 : Rat) ^ fp.length)) *
      (10 : Rat) ^ ex

def stodM (s : String) : Rat :=
  match s.toList with
  | '-' :: r => -stodMagnitude r
  | '+' :: r => stodMagnitude r
  | r => stodMagnitude r

/-! ## AST (src/dbcast.h)

Plain data mirroring namespace dbcppp::AST.  Fields the C++ leaves at their
default (default-constructed or unassigned) values carry that default here.
The ObjectType enum of the C++ header lists Network, Node, Message, Signal
and the three Rel variants; the parser additionally references an
EnvironmentVariable enumerator, which we include. -/

namespace AST

structure Position where
  line : Nat := 0
  column : Nat := 0
  deriving DecidableEq, Repr

/-- std::variant of int64_t, double and std::string. -/
inductive AttributeValue where
  | i : Int → AttributeValue
  | d : Rat → AttributeValue
  | s : String → AttributeValue
  deriving DecidableEq, Repr

structure Version where
  pos : Position := {}
  version : String := ""
  deriving DecidableEq, Repr

structure BitTiming where
  baudrate : Nat := 0
  btr1 : Nat := 0
  btr2 : Nat := 0
  deriving DecidableEq, Repr

structure NodeDef where
  pos : Position := {}
  name : String := ""
  deriving DecidableEq, Repr

structure ValueEncodingDescription where
  value : Int := 0
  description : String := ""
  deriving DecidableEq, Repr

structure ValueTable where
  pos : Position := {}
  name : String := ""
  descriptions : List ValueEncodingDescription := []
  deriving DecidableEq, Repr

inductive MultiplexerType where
  | None
  | MuxSwitch
  | MuxValue
  deriving DecidableEq, Repr

structure Signal where
  pos : Position := {}
  name : String := ""
  mux_type : MultiplexerType := .None
  mux_value : Nat := 0
  start_bit : Nat := 0
  length : Nat := 0
  byte_order : Char := '0'
  value_type : Char := '+'
  factor : Rat := 0
  offset : Rat := 0
  minimum : Rat := 0
  maximum : Rat := 0
  unit : String := ""
  receivers : List String := []
  deriving DecidableEq, Repr

structure Message where
  pos : Position := {}
  id : Nat := 0
  name : String := ""
  size : Nat := 0
  transmitter : String := ""
  signals : List Signal := []
  deriving DecidableEq, Repr

structure MessageTransmitter where
  pos : Position := {}
  message_id : Nat := 0
  transmitters : List String := []
  deriving DecidableEq, Repr

inductive CommentType where
  | Network
  | Node
  | Message
  | Signal
  deriving DecidableEq, Repr

structure Comment where
  pos : Position := {}
  type : CommentType := .Network
  text : String := ""
  node_name : String := ""
  message_id : Nat := 0
  signal_name : String := ""
  deriving DecidableEq, Repr

inductive ObjectType where
  | Network
  | Node
  | Message
  | Signal
  | RelNode
  | RelMessage
  | RelSignal
  | EnvironmentVariable
  deriving DecidableEq, Repr

structure AttributeDefinition where
  pos : Position := {}
  object_type : ObjectType := .Network
  name : String := ""
  value_type : String := ""
  min_value : Option Rat := none
  max_value : Option Rat := none
  enum_values : List String := []
  default_value : Option String := none
  deriving DecidableEq, Repr

structure AttributeDefault where
  pos : Position := {}
  name : String := ""
  value : AttributeValue := .i 0
  deriving DecidableEq, Repr

inductive AttributeValueScope where
  | Network
  | Node
  | Message
  | Signal
  deriving DecidableEq, Repr

structure AttributeValue_t where
  pos : Position := {}
  type : AttributeValueScope := .Network
  attribute_name : String := ""
  value : AttributeValue := .i 0
  node_name : String := ""
  message_id : Nat := 0
  signal_name : String := ""
  deriving DecidableEq, Repr

inductive ValueDescriptionScope where
  | Signal
  deriving DecidableEq, Repr

structure ValueDescription where
  pos : Position := {}
  type : ValueDescriptionScope := .Signal
  message_id : Nat := 0
  object_name : String := ""
  descriptions : List ValueEncodingDescription := []
  deriving DecidableEq, Repr

structure SignalExtendedValueType where
  pos : Position := {}
  message_id : Nat := 0
  signal_name : String := ""
  value_type : Nat := 0
  deriving DecidableEq, Repr

/-- Range of SignalMultiplexerValue; the C++ fields are named from and to. -/
structure SMVRange where
  fromVal : Nat := 0
  toVal : Nat := 0
  deriving DecidableEq, Repr

structure SignalMultiplexerValue where
  pos : Position := {}
  message_id : Nat := 0
  signal_name : String := ""
  switch_name : String := ""
  value_ranges : List SMVRange := []
  deriving DecidableEq, Repr

structure SignalGroup where
  pos : Position := {}
  message_id : Nat := 0
  group_name : String := ""
  repetitions : Nat := 0
  signal_names : List String := []
  deriving DecidableEq, Repr

structure SignalType where
  pos : Position := {}
  name : String := ""
  size : Nat := 0
  byte_order : Char := '0'
  value_type : Char := '+'
  factor : Rat := 0
  offset : Rat := 0
  minimum : Rat := 0
  maximum : Rat := 0
  unit : String := ""
  default_value : Rat := 0
  value_table : String := ""
  deriving DecidableEq, Repr

structure Network where
  version : Version := {}
  new_symbols : List String := []
  bit_timing : Option BitTiming := none
  nodes : List NodeDef := []
  value_tables : List ValueTable := []
  messages : List Message := []
  message_transmitters : List MessageTransmitter := []
  signal_types : List SignalType := []
  comments : List Comment := []
  attribute_definitions : List AttributeDefinition := []
  attribute_defaults : List AttributeDefault := []
  attribute_values : List AttributeValue_t := []
  value_descriptions : List ValueDescription := []
  signal_groups : List SignalGroup := []
  signal_extended_value_types : List SignalExtendedValueType := []
  signal_multiplexer_values : List SignalMultiplexerValue := []
  deriving DecidableEq, Repr

end AST

/-! ## Parse result plumbing (src/dbc_parser_result.h) -/

inductive ParseErrorCode where
  | None | UnexpectedToken | InvalidValueType | InvalidInteger
  | MissingMessageId | InvalidAttributeValue | UnexpectedEndOfFile
  | InvalidSignalFormat | InvalidMultiplexer | InvalidNodeName
  | InvalidMessageFormat | InvalidFloatFormat | InvalidStringFormat
  | MemoryAllocationFailed
  deriving DecidableEq, Repr

structure ParseError where
  code : ParseErrorCode
  message : String
  line : Nat
  column : Nat
  deriving DecidableEq, Repr

/-! ## Parser (class DBCParser in src/dbc_parser.h)

The C++ parser walks tokens_ with an index pos_; we carry the remaining
token suffix.  current() is the head (or the static END_OF_FILE token past
the end), advance() drops the head, and where the source reads
tokens_[pos_ - 1] right after an expect we use the token that expect
returned. -/

/-- The static END_OF_FILE token current() yields past the end. -/
def eofTok : Token := ⟨.END_OF_FILE, "", 0, 0⟩

def cur (ts : List Token) : Token := ts.headD eofTok

def adv (ts : List Token) : List Token := ts.tail

/-- tokenTypeToString(): the source switch covers only some kinds and
falls back to UNKNOWN. -/
def tokenTypeToString (t : TokenType) : String :=
  match t with
  | .INTEGER => "INTEGER"
  | .FLOAT => "FLOAT"
  | .STRING => "STRING"
  | .IDENTIFIER => "IDENTIFIER"
  | .COLON => "COLON"
  | .SEMICOLON => "SEMICOLON"
  | .COMMA => "COMMA"
  | .VERSION => "VERSION"
  | .NS_ => "NS_"
  | .BS_ => "BS_"
  | .BU_ => "BU_"
  | .BO_ => "BO_"
  | .SG_ => "SG_"
  | .VAL_TABLE_ => "VAL_TABLE_"
  | .END_OF_FILE => "END_OF_FILE"
  | _ => "UNKNOWN"

/-- Parse error at the current token, as Err(code, msg, line, column). -/
def perr (code : ParseErrorCode) (msg : String) (ts : List Token) : ParseError :=
  ⟨code, msg, (cur ts).line, (cur ts).column⟩

/-- expect(): consume a token of the given kind or fail with
UnexpectedToken; returns the consumed token. -/
def expectT (tt : TokenType) (msg : String) (ts : List Token) :
    Except ParseError (Token × List Token) :=
  if (cur ts).type = tt then .ok (cur ts, adv ts)
  else
    .error ⟨.UnexpectedToken,
      (if msg = "" then
        "Expected " ++ tokenTypeToString tt ++ " but got " ++
          tokenTypeToString (cur ts).type
       else msg),
      (cur ts).line, (cur ts).column⟩

/-- parseVersion(). -/
def parseVersion (ts0 : List Token) : Except ParseError (AST.Version × List Token) := do
  let pos := AST.Position.mk (cur ts0).line (cur ts0).column
  let (_, ts) ← expectT .VERSION "" ts0
  if (cur ts).type ≠ .STRING then
    throw (perr .UnexpectedToken "Expected string for version" ts)
  .ok ({ pos := pos, version := (cur ts).value }, adv ts)

/-- Collection loop of parseNewSymbols(): until BS_, BU_ or end of file,
collect identifiers and the listed keyword kinds, skipping everything
else. -/
def parseNewSymbolsLoop : List Token → List String × List Token
  | [] => ([], [])
  | t :: rest =>
    if t.type = .BS_ ∨ t.type = .BU_ ∨ t.type = .END_OF_FILE then ([], t :: rest)
    else
      let w := parseNewSymbolsLoop rest
      if t.type = .IDENTIFIER ∨ t.type = .NS_DESC_ ∨ t.type = .CM_ ∨
         t.type = .BA_DEF_ ∨ t.type = .BA_ ∨ t.type = .VAL_ ∨
         t.type = .BA_DEF_DEF_ then
        (t.value :: w.1, w.2)
      else w

/-- parseNewSymbols(). -/
def parseNewSymbols (ts0 : List Token) : Except ParseError ((List String) × List Token) := do
  let (_, ts1) ← expectT .NS_ "" ts0
  let (_, ts2) ← expectT .COLON "" ts1
  .ok (parseNewSymbolsLoop ts2)

/-- parseBitTiming(): an absent BS_ or an empty BS_ colon section yields no
bit timing. -/
def parseBitTiming (ts0 : List Token) : Except ParseError ((Option AST.BitTiming) × List Token) := do
  if (cur ts0).type ≠ .BS_ then
    .ok (none, ts0)
  else
    let ts1 := adv ts0
    let (_, ts2) ← expectT .COLON "" ts1
    if (cur ts2).type ≠ .INTEGER then
      .ok (none, ts2)
    else
      let baudrate := stoullM (cur ts2).value
      let ts3 := adv ts2
      let (_, ts4) ← expectT .COLON "" ts3
      if (cur ts4).type ≠ .INTEGER then
        throw (perr .UnexpectedToken "Expected integer for BTR1" ts4)
      let btr1 := stoullM (cur ts4).value
      let ts5 := adv ts4
      let (_, ts6) ← expectT .COMMA "" ts5
      if (cur ts6).type ≠ .INTEGER then
        throw (perr .UnexpectedToken "Expected integer for BTR2" ts6)
      .ok (some { baudrate := baudrate, btr1 := btr1,
                  btr2 := stoullM (cur ts6).value }, adv ts6)

/-- Identifier loop of parseNodes(): the loop ends at the first token that
is not an IDENTIFIER; in particular a colon after BU_ ends it at once. -/
def parseNodesLoop : List Token → List AST.NodeDef × List Token
  | [] => ([], [])
  | t :: rest =>
    if t.type = .IDENTIFIER then
      let w := parseNodesLoop rest
      ({ pos := ⟨t.line, t.column⟩, name := t.value } :: w.1, w.2)
    else ([], t :: rest)

/-- parseNodes(): BU_ followed by identifiers; no colon is consumed here. -/
def parseNodes (ts0 : List Token) : Except ParseError ((List AST.NodeDef) × List Token) := do
  let (_, ts1) ← expectT .BU_ "" ts0
  .ok (parseNodesLoop ts1)

/-- std::string::back() of a nonempty string. -/
def strBack (s : String) : Char := s.toList.getLastD '\x00'

/-- std::string::substr(pos, len). -/
def substrM (s : String) (p n : Nat) : String := String.mk ((s.toList.drop p).take n)

/-- std::string::substr(pos). -/
def substrFrom (s : String) (p : Nat) : String := String.mk (s.toList.drop p)

/-- Multiplex-indicator step of parseSignal(): a bare M (MUX_M kind or the
positional identifier M) is the switch; a MUX_m literal m n or m n M yields
a multiplex value, the number taken with substr; for the m n M form the
source only notes in a comment that the signal is also a deeper-level
switch and records nothing beyond the value. -/
def parseSignalMux (ts : List Token) : AST.MultiplexerType × Nat × List Token :=
  if (cur ts).type = .MUX_M ∨
     ((cur ts).type = .IDENTIFIER ∧ (cur ts).value = "M") then
    (.MuxSwitch, 0, adv ts)
  else if (cur ts).type = .MUX_m then
    let v := (cur ts).value
    if strBack v = 'M' then
      (.MuxValue, stoullM (substrM v 1 (v.length - 2)), adv ts)
    else
      (.MuxValue, stoullM (substrFrom v 1), adv ts)
  else (.None, 0, ts)

/-- Receiver loop of parseSignal(): identifiers (stopping at a literal SG_
spelling) with optional commas.  Fuel bounds the iteration count; callers
pass the token count, which the loop cannot exceed. -/
def parseReceiversLoop : Nat → List Token → List String × List Token
  | 0, ts => ([], ts)
  | Nat.succ fuel, ts =>
    if (cur ts).type = .IDENTIFIER ∧ (cur ts).value ≠ "SG_" then
      let v := (cur ts).value
      let ts1 := adv ts
      let ts2 := if (cur ts1).type = .COMMA then adv ts1 else ts1
      let w := parseReceiversLoop fuel ts2
      (v :: w.1, w.2)
    else ([], ts)

/-- Tail of parseSignal() after the name and the multiplex indicator. -/
def parseSignalAfterMux (pos : AST.Position) (name : String)
    (mt : AST.MultiplexerType) (mv : Nat) (ts0 : List Token) :
    Except ParseError (AST.Signal × List Token) := do
  let (_, ts1) ← expectT .COLON "" ts0
  if (cur ts1).type ≠ .INTEGER then
    throw (perr .UnexpectedToken "Expected integer for start bit" ts1)
  let start_bit := stoullM (cur ts1).value
  let ts2 := adv ts1
  let (_, ts3) ← expectT .PIPE "" ts2
  if (cur ts3).type ≠ .INTEGER then
    throw (perr .UnexpectedToken "Expected integer for signal size" ts3)
  let length := stoullM (cur ts3).value
  let ts4 := adv ts3
  let (_, ts5) ← expectT .AT "" ts4
  if ¬((cur ts5).type = .INTEGER ∧ (cur ts5).value ≠ "") then
    throw (perr .UnexpectedToken "Expected byte order (0 or 1)" ts5)
  let byte_order := headD0 (cur ts5).value.toList
  let ts6 := adv ts5
  let (value_type, ts7) ←
    (if (cur ts6).type = .PLUS then pure ('+', adv ts6)
     else if (cur ts6).type = .MINUS then pure ('-', adv ts6)
     else throw (perr .UnexpectedToken "Expected + or - for signal value type" ts6) :
      Except ParseError (Char × List Token))
  let (_, ts8) ← expectT .LPAREN "" ts7
  let (factor, ts9) ←
    (if (cur ts8).type = .FLOAT ∨ (cur ts8).type = .INTEGER then
       pure (stodM (cur ts8).value, adv ts8)
     else throw (perr .UnexpectedToken "Expected factor value" ts8) :
      Except ParseError (Rat × List Token))
  let (_, ts10) ← expectT .COMMA "" ts9
  let (offset, ts11) ←
    (if (cur ts10).type = .FLOAT ∨ (cur ts10).type = .INTEGER then
       pure (stodM (cur ts10).value, adv ts10)
     else if (cur ts10).type = .MINUS then
       let tsm := adv ts10
       if (cur tsm).type ≠ .FLOAT ∧ (cur tsm).type ≠ .INTEGER then
         throw (perr .UnexpectedToken "Expected number after minus sign" tsm)
       else pure (-(stodM (cur tsm).value), adv tsm)
     else throw (perr .UnexpectedToken "Expected offset value" ts10) :
      Except ParseError (Rat × List Token))
  let (_, ts12) ← expectT .RPAREN "" ts11
  let (_, ts13) ← expectT .LBRACKET "" ts12
  let (minimum, ts14) ←
    (if (cur ts13).type = .FLOAT ∨ (cur ts13).type = .INTEGER then
       pure (stodM (cur ts13).value, adv ts13)
     else if (cur ts13).type = .MINUS then
       let tsm := adv ts13
       if (cur tsm).type ≠ .FLOAT ∧ (cur tsm).type ≠ .INTEGER then
         throw (perr .UnexpectedToken "Expected number after minus sign" tsm)
       else pure (-(stodM (cur tsm).value), adv tsm)
     else throw (perr .UnexpectedToken "Expected minimum value" ts13) :
      Except ParseError (Rat × List Token))
  let (_, ts15) ← expectT .PIPE "" ts14
  let (maximum, ts16) ←
    (if (cur ts15).type = .FLOAT ∨ (cur ts15).type = .INTEGER then
       pure (stodM (cur ts15).value, adv ts15)
     else if (cur ts15).type = .PLUS then
       let tsm := adv ts15
       if (cur tsm).type ≠ .FLOAT ∧ (cur tsm).type ≠ .INTEGER then
         throw (perr .UnexpectedToken "Expected number after plus sign" tsm)
       else pure (stodM (cur tsm).value, adv tsm)
     else if (cur ts15).type = .MINUS then
       let tsm := adv ts15
       if (cur tsm).type ≠ .FLOAT ∧ (cur tsm).type ≠ .INTEGER then
         throw (perr .UnexpectedToken "Expected number after minus sign" tsm)
       else pure (-(stodM (cur tsm).value), adv tsm)
     else throw (perr .UnexpectedToken "Expected maximum value" ts15) :
      Except ParseError (Rat × List Token))
  let (_, ts17) ← expectT .RBRACKET "" ts16
  let (unitTok, ts18) ← expectT .STRING "" ts17
  let w := parseReceiversLoop ts18.length ts18
  .ok ({ pos := pos, name := name, mux_type := mt, mux_value := mv,
         start_bit := start_bit, length := length, byte_order := byte_order,
         value_type := value_type, factor := factor, offset := offset,
         minimum := minimum, maximum := maximum, unit := unitTok.value,
         receivers := w.1 }, w.2)

/-- parseSignal(). -/
def parseSignal (ts0 : List Token) : Except ParseError (AST.Signal × List Token) := do
  let pos := AST.Position.mk (cur ts0).line (cur ts0).column
  let (_, ts1) ← expectT .SG_ "" ts0
  if (cur ts1).type ≠ .IDENTIFIER then
    throw (perr .UnexpectedToken "Expected signal name" ts1)
  let name := (cur ts1).value
  let ts2 := adv ts1
  let m := parseSignalMux ts2
  parseSignalAfterMux pos name m.1 m.2.1 m.2.2

/-- Signal loop of parseMessage(). -/
def parseSignalsLoop : Nat → List Token → List AST.Signal →
    Except ParseError (List AST.Signal × List Token)
  | 0, ts, acc => .ok (acc, ts)
  | Nat.succ fuel, ts, acc =>
    if (cur ts).type = .SG_ then
      match parseSignal ts with
      | .error e => .error e
      | .ok (s, ts2) => parseSignalsLoop fuel ts2 (acc ++ [s])
    else .ok (acc, ts)

/-- parseMessage(). -/
def parseMessage (ts0 : List Token) : Except ParseError (AST.Message × List Token) := do
  let pos := AST.Position.mk (cur ts0).line (cur ts0).column
  let (_, ts1) ← expectT .BO_ "" ts0
  if (cur ts1).type ≠ .INTEGER then
    throw (perr .UnexpectedToken "Expected message ID" ts1)
  let id := stoullM (cur ts1).value
  let ts2 := adv ts1
  if (cur ts2).type ≠ .IDENTIFIER then
    throw (perr .UnexpectedToken "Expected message name" ts2)
  let name := (cur ts2).value
  let ts3 := adv ts2
  let (_, ts4) ← expectT .COLON "" ts3
  if (cur ts4).type ≠ .INTEGER then
    throw (perr .UnexpectedToken "Expected message size (DLC)" ts4)
  let size := stoullM (cur ts4).value
  let ts5 := adv ts4
  let (transmitter, ts6) :=
    if (cur ts5).type = .IDENTIFIER then ((cur ts5).value, adv ts5) else ("", ts5)
  let (signals, ts7) ← parseSignalsLoop ts6.length ts6 []
  .ok ({ pos := pos, id := id, name := name, size := size,
         transmitter := transmitter, signals := signals }, ts7)

/-- Shared value-entry loop of parseValueTable() and
parseValueDescription(): INT STRING pairs. -/
def parseValueEntriesLoop : Nat → List Token →
    List AST.ValueEncodingDescription →
    Except ParseError (List AST.ValueEncodingDescription × List Token)
  | 0, ts, acc => .ok (acc, ts)
  | Nat.succ fuel, ts, acc =>
    if (cur ts).type = .INTEGER then
      let v := stollM (cur ts).value
      let ts1 := adv ts
      match expectT .STRING "" ts1 with
      | .error e => .error e
      | .ok (st, ts2) =>
        parseValueEntriesLoop fuel ts2 (acc ++ [{ value := v, description := st.value }])
    else .ok (acc, ts)

/-- parseValueTable(); the trailing semicolon is optional. -/
def parseValueTable (ts0 : List Token) : Except ParseError (AST.ValueTable × List Token) := do
  let pos := AST.Position.mk (cur ts0).line (cur ts0).column
  let (_, ts1) ← expectT .VAL_TABLE_ "" ts0
  if (cur ts1).type ≠ .IDENTIFIER then
    throw (perr .UnexpectedToken "Expected value table name" ts1)
  let name := (cur ts1).value
  let ts2 := adv ts1
  let (descs, ts3) ← parseValueEntriesLoop ts2.length ts2 []
  let ts4 := if (cur ts3).type = .SEMICOLON then adv ts3 else ts3
  .ok ({ pos := pos, name := name, descriptions := descs }, ts4)

/-- parseComment(). -/
def parseComment (ts0 : List Token) : Except ParseError (AST.Comment × List Token) := do
  let pos := AST.Position.mk (cur ts0).line (cur ts0).column
  let (_, ts1) ← expectT .CM_ "" ts0
  let (ctype, mid, nname, sname, ts2) ←
    (if (cur ts1).type = .BO_ then
       let tsa := adv ts1
       if (cur tsa).type ≠ .INTEGER then
         throw (perr .UnexpectedToken "Expected message ID" tsa)
       else
         pure (AST.CommentType.Message, stoullM (cur tsa).value, "", "", adv tsa)
     else if (cur ts1).type = .SG_ then
       let tsa := adv ts1
       if (cur tsa).type ≠ .INTEGER then
         throw (perr .UnexpectedToken "Expected message ID" tsa)
       else
         let mid := stoullM (cur tsa).value
         let tsb := adv tsa
         if (cur tsb).type ≠ .IDENTIFIER then
           throw (perr .UnexpectedToken "Expected signal name" tsb)
         else pure (AST.CommentType.Signal, mid, "", (cur tsb).value, adv tsb)
     else if (cur ts1).type = .BU_ then
       let tsa := adv ts1
       if (cur tsa).type ≠ .IDENTIFIER then
         throw (perr .UnexpectedToken "Expected node name" tsa)
       else pure (AST.CommentType.Node, 0, (cur tsa).value, "", adv tsa)
     else pure (AST.CommentType.Network, 0, "", "", ts1) :
      Except ParseError (AST.CommentType × Nat × String × String × List Token))
  let (st, ts3) ← expectT .STRING "" ts2
  let (_, ts4) ← expectT .SEMICOLON "" ts3
  .ok ({ pos := pos, type := ctype, text := st.value, node_name := nname,
         message_id := mid, signal_name := sname }, ts4)

/-- Range loop of parseSignalMultiplexerValue(): runs until the semicolon;
a single value stands for the singleton range. -/
def parseSMVRangesLoop : Nat → List Token → List AST.SMVRange →
    Except ParseError (List AST.SMVRange × List Token)
  | 0, ts, acc => .ok (acc, ts)
  | Nat.succ fuel, ts, acc =>
    if (cur ts).type = .SEMICOLON then .ok (acc, ts)
    else if (cur ts).type = .INTEGER then
      let fromV := stoullM (cur ts).value
      let ts1 := adv ts
      if (cur ts1).type = .MINUS then
        let ts2 := adv ts1
        if (cur ts2).type ≠ .INTEGER then
          .error (perr .UnexpectedToken "Expected integer after minus in range" ts2)
        else
          let toV := stoullM (cur ts2).value
          let ts3 := adv ts2
          let ts4 := if (cur ts3).type = .COMMA then adv ts3 else ts3
          parseSMVRangesLoop fuel ts4 (acc ++ [{ fromVal := fromV, toVal := toV }])
      else
        let ts4 := if (cur ts1).type = .COMMA then adv ts1 else ts1
        parseSMVRangesLoop fuel ts4 (acc ++ [{ fromVal := fromV, toVal := fromV }])
    else .error (perr .UnexpectedToken "Expected integer value in SG_MUL_VAL_" ts)

/-- parseSignalMultiplexerValue(). -/
def parseSignalMultiplexerValue (ts0 : List Token) :
    Except ParseError (AST.SignalMultiplexerValue × List Token) := do
  let pos := AST.Position.mk (cur ts0).line (cur ts0).column
  let (_, ts1) ← expectT .SG_MUL_VAL_ "" ts0
  if (cur ts1).type ≠ .INTEGER then
    throw (perr .UnexpectedToken "Expected message ID" ts1)
  let mid := stoullM (cur ts1).value
  let ts2 := adv ts1
  if (cur ts2).type ≠ .IDENTIFIER then
    throw (perr .UnexpectedToken "Expected signal name" ts2)
  let sname := (cur ts2).value
  let ts3 := adv ts2
  if (cur ts3).type ≠ .IDENTIFIER then
    throw (perr .UnexpectedToken "Expected switch name" ts3)
  let swname := (cur ts3).value
  let ts4 := adv ts3
  let (ranges, ts5) ← parseSMVRangesLoop ts4.length ts4 []
  let (_, ts6) ← expectT .SEMICOLON "" ts5
  .ok ({ pos := pos, message_id := mid, signal_name := sname,
         switch_name := swname, value_ranges := ranges }, ts6)

/-- Enum label loop of parseAttributeDefinition(). -/
def parseEnumValuesLoop : Nat → List Token → List String →
    List String × List Token
  | 0, ts, acc => (acc, ts)
  | Nat.succ fuel, ts, acc =>
    if (cur ts).type = .STRING then
      let v := (cur ts).value
      let ts1 := adv ts
      let ts2 := if (cur ts1).type = .COMMA then adv ts1 else ts1
      parseEnumValuesLoop fuel ts2 (acc ++ [v])
    else (acc, ts)

/-- parseAttributeDefinition(). -/
def parseAttributeDefinition (ts0 : List Token) :
    Except ParseError (AST.AttributeDefinition × List Token) := do
  let pos := AST.Position.mk (cur ts0).line (cur ts0).column
  let (_, ts1) ← expectT .BA_DEF_ "" ts0
  let (object_type, ts2) :=
    if (cur ts1).type = .BU_ then (AST.ObjectType.Node, adv ts1)
    else if (cur ts1).type = .BO_ then (AST.ObjectType.Message, adv ts1)
    else if (cur ts1).type = .SG_ then (AST.ObjectType.Signal, adv ts1)
    else if (cur ts1).type = .EV_ then (AST.ObjectType.EnvironmentVariable, adv ts1)
    else (AST.ObjectType.Network, ts1)
  let (nameTok, ts3) ← expectT .STRING "" ts2
  if ¬((cur ts3).type = .IDENTIFIER ∨ (cur ts3).type = .STRING) then
    throw (perr .UnexpectedToken "Expected attribute value type" ts3)
  let value_type := (cur ts3).value
  let ts4 := adv ts3
  let (minv, maxv, enums, defv, ts5) ←
    (if value_type = "INT" ∨ value_type = "HEX" ∨ value_type = "FLOAT" then
       if (cur ts4).type = .INTEGER ∨ (cur ts4).type = .FLOAT then
         let mn := stodM (cur ts4).value
         let tsa := adv ts4
         if (cur tsa).type = .INTEGER ∨ (cur tsa).type = .FLOAT then
           pure (some mn, some (stodM (cur tsa).value), ([] : List String),
             (none : Option String), adv tsa)
         else
           throw (perr .UnexpectedToken "Expected max value for numeric range" tsa)
       else pure (none, none, [], none, ts4)
     else if value_type = "ENUM" then
       let w := parseEnumValuesLoop ts4.length ts4 []
       pure (none, none, w.1, none, w.2)
     else if value_type = "STRING" then
       if (cur ts4).type = .STRING then
         pure (none, none, [], some (cur ts4).value, adv ts4)
       else pure (none, none, [], none, ts4)
     else pure (none, none, [], none, ts4) :
      Except ParseError
        (Option Rat × Option Rat × List String × Option String × List Token))
  let (_, ts6) ← expectT .SEMICOLON "" ts5
  .ok ({ pos := pos, object_type := object_type, name := nameTok.value,
         value_type := value_type, min_value := minv, max_value := maxv,
         enum_values := enums, default_value := defv }, ts6)

/-- parseAttributeValue() for BA_. -/
def parseAttributeValue (ts0 : List Token) :
    Except ParseError (AST.AttributeValue_t × List Token) := do
  let pos := AST.Position.mk (cur ts0).line (cur ts0).column
  let (_, ts1) ← expectT .BA_ "" ts0
  let (nameTok, ts2) ← expectT .STRING "" ts1
  let (scope, nname, mid, sname, ts3) ←
    (if (cur ts2).type = .BU_ then
       let tsa := adv ts2
       if (cur tsa).type ≠ .IDENTIFIER then
         throw (perr .UnexpectedToken "Expected node name" tsa)
       else pure (AST.AttributeValueScope.Node, (cur tsa).value, 0, "", adv tsa)
     else if (cur ts2).type = .BO_ then
       let tsa := adv ts2
       if (cur tsa).type ≠ .INTEGER then
         throw (perr .UnexpectedToken "Expected message ID" tsa)
       else pure (AST.AttributeValueScope.Message, "", stoullM (cur tsa).value, "", adv tsa)
     else if (cur ts2).type = .SG_ then
       let tsa := adv ts2
       if (cur tsa).type ≠ .INTEGER then
         throw (perr .UnexpectedToken "Expected message ID" tsa)
       else
         let mid := stoullM (cur tsa).value
         let tsb := adv tsa
         if (cur tsb).type ≠ .IDENTIFIER then
           throw (perr .UnexpectedToken "Expected signal name" tsb)
         else pure (AST.AttributeValueScope.Signal, "", mid, (cur tsb).value, adv tsb)
     else pure (AST.AttributeValueScope.Network, "", 0, "", ts2) :
      Except ParseError
        (AST.AttributeValueScope × String × Nat × String × List Token))
  let (value, ts4) ←
    (if (cur ts3).type = .INTEGER then
       pure (AST.AttributeValue.i (stollM (cur ts3).value), adv ts3)
     else if (cur ts3).type = .FLOAT then
       pure (AST.AttributeValue.d (stodM (cur ts3).value), adv ts3)
     else if (cur ts3).type = .STRING then
       pure (AST.AttributeValue.s (cur ts3).value, adv ts3)
     else throw (perr .UnexpectedToken "Expected attribute value" ts3) :
      Except ParseError (AST.AttributeValue × List Token))
  let (_, ts5) ← expectT .SEMICOLON "" ts4
  .ok ({ pos := pos, type := scope, attribute_name := nameTok.value,
         value := value, node_name := nname, message_id := mid,
         signal_name := sname }, ts5)

/-- Transmitter loop of parseMessageTransmitter(): identifiers with
optional commas. -/
def parseTransmittersLoop : Nat → List Token → List String →
    List String × List Token
  | 0, ts, acc => (acc, ts)
  | Nat.succ fuel, ts, acc =>
    if (cur ts).type = .IDENTIFIER then
      let v := (cur ts).value
      let ts1 := adv ts
      let ts2 := if (cur ts1).type = .COMMA then adv ts1 else ts1
      parseTransmittersLoop fuel ts2 (acc ++ [v])
    else (acc, ts)

/-- parseMessageTransmitter() for BO_TX_BU_. -/
def parseMessageTransmitter (ts0 : List Token) : Except ParseError (AST.MessageTransmitter × List Token) := do
  let pos := AST.Position.mk (cur ts0).line (cur ts0).column
  let (_, ts1) ← expectT .BO_TX_BU_ "" ts0
  if (cur ts1).type ≠ .INTEGER then
    throw (perr .UnexpectedToken "Expected message ID" ts1)
  let mid := stoullM (cur ts1).value
  let ts2 := adv ts1
  let (_, ts3) ← expectT .COLON "" ts2
  let w := parseTransmittersLoop ts3.length ts3 []
  let (_, ts4) ← expectT .SEMICOLON "" w.2
  .ok ({ pos := pos, message_id := mid, transmitters := w.1 }, ts4)

/-- parseValueDescription() for VAL_ (signal value descriptions only). -/
def parseValueDescription (ts0 : List Token) : Except ParseError (AST.ValueDescription × List Token) := do
  let pos := AST.Position.mk (cur ts0).line (cur ts0).column
  let (_, ts1) ← expectT .VAL_ "" ts0
  if (cur ts1).type ≠ .INTEGER then
    throw (perr .UnexpectedToken "Expected message ID for value description" ts1)
  let mid := stoullM (cur ts1).value
  let ts2 := adv ts1
  if (cur ts2).type ≠ .IDENTIFIER then
    throw (perr .UnexpectedToken "Expected signal name" ts2)
  let oname := (cur ts2).value
  let ts3 := adv ts2
  let (descs, ts4) ← parseValueEntriesLoop ts3.length ts3 []
  let (_, ts5) ← expectT .SEMICOLON "" ts4
  .ok ({ pos := pos, type := .Signal, message_id := mid, object_name := oname,
         descriptions := descs }, ts5)

/-- parseAttributeDefault() for BA_DEF_DEF_. -/
def parseAttributeDefault (ts0 : List Token) : Except ParseError (AST.AttributeDefault × List Token) := do
  let pos := AST.Position.mk (cur ts0).line (cur ts0).column
  let (_, ts1) ← expectT .BA_DEF_DEF_ "" ts0
  let (nameTok, ts2) ← expectT .STRING "" ts1
  let (value, ts3) ←
    (if (cur ts2).type = .INTEGER then
       pure (AST.AttributeValue.i (stollM (cur ts2).value), adv ts2)
     else if (cur ts2).type = .FLOAT then
       pure (AST.AttributeValue.d (stodM (cur ts2).value), adv ts2)
     else if (cur ts2).type = .STRING then
       pure (AST.AttributeValue.s (cur ts2).value, adv ts2)
     else throw (perr .UnexpectedToken "Expected attribute value" ts2) :
      Except ParseError (AST.AttributeValue × List Token))
  let (_, ts4) ← expectT .SEMICOLON "" ts3
  .ok ({ pos := pos, name := nameTok.value, value := value }, ts4)

/-- Signal-name loop of parseSignalGroup(): bare identifiers. -/
def parseSignalNamesLoop : List Token → List String × List Token
  | [] => ([], [])
  | t :: rest =>
    if t.type = .IDENTIFIER then
      let w := parseSignalNamesLoop rest
      (t.value :: w.1, w.2)
    else ([], t :: rest)

/-- parseSignalGroup() for SIG_GROUP_. -/
def parseSignalGroup (ts0 : List Token) : Except ParseError (AST.SignalGroup × List Token) := do
  let pos := AST.Position.mk (cur ts0).line (cur ts0).column
  let (_, ts1) ← expectT .SIG_GROUP_ "" ts0
  if (cur ts1).type ≠ .INTEGER then
    throw (perr .UnexpectedToken "Expected message ID" ts1)
  let mid := stoullM (cur ts1).value
  let ts2 := adv ts1
  if (cur ts2).type ≠ .IDENTIFIER then
    throw (perr .UnexpectedToken "Expected group name" ts2)
  let gname := (cur ts2).value
  let ts3 := adv ts2
  if (cur ts3).type ≠ .INTEGER then
    throw (perr .UnexpectedToken "Expected repetitions count" ts3)
  let reps := stoullM (cur ts3).value
  let ts4 := adv ts3
  let (_, ts5) ← expectT .COLON "" ts4
  let w := parseSignalNamesLoop ts5
  let (_, ts6) ← expectT .SEMICOLON "" w.2
  .ok ({ pos := pos, message_id := mid, group_name := gname,
         repetitions := reps, signal_names := w.1 }, ts6)

/-- parseSignalExtendedValueType() for SIG_VALTYPE_. -/
def parseSignalExtendedValueType (ts0 : List Token) :
    Except ParseError (AST.SignalExtendedValueType × List Token) := do
  let pos := AST.Position.mk (cur ts0).line (cur ts0).column
  let (_, ts1) ← expectT .SIG_VALTYPE_ "" ts0
  if (cur ts1).type ≠ .INTEGER then
    throw (perr .UnexpectedToken "Expected message ID" ts1)
  let mid := stoullM (cur ts1).value
  let ts2 := adv ts1
  if (cur ts2).type ≠ .IDENTIFIER then
    throw (perr .UnexpectedToken "Expected signal name" ts2)
  let sname := (cur ts2).value
  let ts3 := adv ts2
  let (_, ts4) ← expectT .COLON "" ts3
  if (cur ts4).type ≠ .INTEGER then
    throw (perr .UnexpectedToken "Expected value type" ts4)
  let vt := stoullM (cur ts4).value
  let ts5 := adv ts4
  let (_, ts6) ← expectT .SEMICOLON "" ts5
  .ok ({ pos := pos, message_id := mid, signal_name := sname,
         value_type := vt }, ts6)

/-- parseSignalType() for SGTYPE_. -/
def parseSignalType (ts0 : List Token) : Except ParseError (AST.SignalType × List Token) := do
  let pos := AST.Position.mk (cur ts0).line (cur ts0).column
  let (_, ts1) ← expectT .SGTYPE_ "" ts0
  if (cur ts1).type ≠ .IDENTIFIER then
    throw (perr .UnexpectedToken "Expected signal type name" ts1)
  let name := (cur ts1).value
  let ts2 := adv ts1
  let (_, ts3) ← expectT .COLON "" ts2
  if (cur ts3).type ≠ .INTEGER then
    throw (perr .UnexpectedToken "Expected signal size" ts3)
  let size := stoullM (cur ts3).value
  let ts4 := adv ts3
  let (_, ts5) ← expectT .AT "" ts4
  if ¬((cur ts5).type = .INTEGER ∧ (cur ts5).value ≠ "") then
    throw (perr .UnexpectedToken "Expected byte order" ts5)
  let byte_order := headD0 (cur ts5).value.toList
  let ts6 := adv ts5
  let (value_type, ts7) ←
    (if (cur ts6).type = .PLUS then pure ('+', adv ts6)
     else if (cur ts6).type = .MINUS then pure ('-', adv ts6)
     else throw (perr .UnexpectedToken "Expected + or - for value type" ts6) :
      Except ParseError (Char × List Token))
  let (_, ts8) ← expectT .LPAREN "" ts7
  if ¬((cur ts8).type = .FLOAT ∨ (cur ts8).type = .INTEGER) then
    throw (perr .UnexpectedToken "Expected factor value" ts8)
  let factor := stodM (cur ts8).value
  let ts9 := adv ts8
  let (_, ts10) ← expectT .COMMA "" ts9
  if ¬((cur ts10).type = .FLOAT ∨ (cur ts10).type = .INTEGER) then
    throw (perr .UnexpectedToken "Expected offset value" ts10)
  let offset := stodM (cur ts10).value
  let ts11 := adv ts10
  let (_, ts12) ← expectT .RPAREN "" ts11
  let (_, ts13) ← expectT .LBRACKET "" ts12
  if ¬((cur ts13).type = .FLOAT ∨ (cur ts13).type = .INTEGER) then
    throw (perr .UnexpectedToken "Expected minimum value" ts13)
  let minimum := stodM (cur ts13).value
  let ts14 := adv ts13
  let (_, ts15) ← expectT .PIPE "" ts14
  if ¬((cur ts15).type = .FLOAT ∨ (cur ts15).type = .INTEGER) then
    throw (perr .UnexpectedToken "Expected maximum value" ts15)
  let maximum := stodM (cur ts15).value
  let ts16 := adv ts15
  let (_, ts17) ← expectT .RBRACKET "" ts16
  let (unitTok, ts18) ← expectT .STRING "" ts17
  if ¬((cur ts18).type = .FLOAT ∨ (cur ts18).type = .INTEGER) then
    throw (perr .UnexpectedToken "Expected default value" ts18)
  let dflt := stodM (cur ts18).value
  let ts19 := adv ts18
  let (_, ts20) ← expectT .COMMA "" ts19
  if (cur ts20).type ≠ .IDENTIFIER then
    throw (perr .UnexpectedToken "Expected value table name" ts20)
  let vtname := (cur ts20).value
  let ts21 := adv ts20
  let (_, ts22) ← expectT .SEMICOLON "" ts21
  .ok ({ pos := pos, name := name, size := size, byte_order := byte_order,
         value_type := value_type, factor := factor, offset := offset,
         minimum := minimum, maximum := maximum, unit := unitTok.value,
         default_value := dflt, value_table := vtname }, ts22)

/-- The top-level statement loop of parse().  EV_-scoped attribute
definitions are parsed but dropped (only logged); any token kind without a
handler is consumed silently for forward compatibility.  Fuel bounds the
iteration count; parse() passes the token count, which the loop cannot
exceed since every iteration consumes at least one token. -/
def parseLoop : Nat → List Token → AST.Network →
    Except ParseError (AST.Network × List Token)
  | 0, ts, net => .ok (net, ts)
  | Nat.succ fuel, ts, net =>
    if (cur ts).type = .END_OF_FILE then .ok (net, ts)
    else if (cur ts).type = .VAL_TABLE_ then
      match parseValueTable ts with
      | .error e => .error e
      | .ok (vt, ts2) =>
        parseLoop fuel ts2 { net with value_tables := net.value_tables ++ [vt] }
    else if (cur ts).type = .BO_ then
      match parseMessage ts with
      | .error e => .error e
      | .ok (m, ts2) =>
        parseLoop fuel ts2 { net with messages := net.messages ++ [m] }
    else if (cur ts).type = .CM_ then
      match parseComment ts with
      | .error e => .error e
      | .ok (cm, ts2) =>
        parseLoop fuel ts2 { net with comments := net.comments ++ [cm] }
    else if (cur ts).type = .BA_DEF_ then
      match parseAttributeDefinition ts with
      | .error e => .error e
      | .ok (ad, ts2) =>
        if ad.object_type = .EnvironmentVariable then
          parseLoop fuel ts2 net
        else
          parseLoop fuel ts2
            { net with attribute_definitions := net.attribute_definitions ++ [ad] }
    else if (cur ts).type = .BA_ then
      match parseAttributeValue ts with
      | .error e => .error e
      | .ok (av, ts2) =>
        parseLoop fuel ts2 { net with attribute_values := net.attribute_values ++ [av] }
    else if (cur ts).type = .BO_TX_BU_ then
      match parseMessageTransmitter ts with
      | .error e => .error e
      | .ok (mt, ts2) =>
        parseLoop fuel ts2
          { net with message_transmitters := net.message_transmitters ++ [mt] }
    else if (cur ts).type = .SG_MUL_VAL_ then
      match parseSignalMultiplexerValue ts with
      | .error e => .error e
      | .ok (smv, ts2) =>
        parseLoop fuel ts2
          { net with signal_multiplexer_values := net.signal_multiplexer_values ++ [smv] }
    else if (cur ts).type = .VAL_ then
      match parseValueDescription ts with
      | .error e => .error e
      | .ok (vd, ts2) =>
        parseLoop fuel ts2
          { net with value_descriptions := net.value_descriptions ++ [vd] }
    else if (cur ts).type = .BA_DEF_DEF_ then
      match parseAttributeDefault ts with
      | .error e => .error e
      | .ok (ad, ts2) =>
        parseLoop fuel ts2
          { net with attribute_defaults := net.attribute_defaults ++ [ad] }
    else if (cur ts).type = .SIG_GROUP_ then
      match parseSignalGroup ts with
      | .error e => .error e
      | .ok (sg, ts2) =>
        parseLoop fuel ts2 { net with signal_groups := net.signal_groups ++ [sg] }
    else if (cur ts).type = .SIG_VALTYPE_ then
      match parseSignalExtendedValueType ts with
      | .error e => .error e
      | .ok (sevt, ts2) =>
        parseLoop fuel ts2
          { net with signal_extended_value_types := net.signal_extended_value_types ++ [sevt] }
    else if (cur ts).type = .SGTYPE_ then
      match parseSignalType ts with
      | .error e => .error e
      | .ok (st, ts2) =>
        parseLoop fuel ts2 { net with signal_types := net.signal_types ++ [st] }
    else
      parseLoop fuel (adv ts) net

/-- DBCParser::parse(): tokenize, then the fixed header sequence VERSION,
optional NS_, BS_, BU_, then the statement loop. -/
def parse (input : String) : Except ParseError AST.Network := do
  let toks := tokenize input
  let (version, ts1) ← parseVersion toks
  let (syms, ts2) ←
    (if (cur ts1).type = .NS_ then parseNewSymbols ts1
     else pure (([] : List String), ts1) :
      Except ParseError (List String × List Token))
  let (bt, ts3) ← parseBitTiming ts2
  let (nodes, ts4) ← parseNodes ts3
  let net0 : AST.Network :=
    { version := version, new_symbols := syms, bit_timing := bt, nodes := nodes }
  let (net, _) ← parseLoop ts4.length ts4 net0
  .ok net


/-! ## Model (the immutable network object model)

The impl classes under src/ (network_impl, node_impl, message_impl,
attribute_impl, value_table_impl, bit_timing_impl, signal_group_impl,
signal_multiplexer_value_impl, signal_type_impl,
value_encoding_description_impl) store the arguments of their Create
factories verbatim; they are modelled as plain records of those arguments.
The interface headers and the signal implementation are not under src/ and
are modelled from the spec where noted. -/

namespace Model

/-- IAttributeDefinition::EObjectType. -/
inductive EObjectType where
  | Network
  | Node
  | Message
  | Signal
  deriving DecidableEq, Repr

/-- ISignal::EMultiplexer. -/
inductive EMultiplexer where
  | NoMux
  | MuxSwitch
  | MuxValue
  deriving DecidableEq, Repr

/-- ISignal::EByteOrder. -/
inductive EByteOrder where
  | BigEndian
  | LittleEndian
  deriving DecidableEq, Repr

/-- ISignal::EValueType. -/
inductive EValueType where
  | Unsigned
  | Signed
  deriving DecidableEq, Repr

/-- ISignal::EExtendedValueType. -/
inductive EExtendedValueType where
  | Integer
  | Float
  | Double
  deriving DecidableEq, Repr

/-- IAttribute::Create stores name, object type and value
(src/attribute_impl.cpp); the value variant is the same int64, double,
string union as in the AST. -/
structure Attribute where
  name : String
  object_type : EObjectType
  value : AST.AttributeValue
  deriving DecidableEq, Repr

/-- IValueEncodingDescription::Create stores value and description. -/
structure ValueEncodingDescription where
  value : Int
  description : String
  deriving DecidableEq, Repr

/-- ISignalMultiplexerValue::Create stores the switch name and the value
ranges (src/signal_multiplexer_value_impl.cpp). -/
structure SignalMultiplexerValue where
  switch_name : String
  value_ranges : List (Nat × Nat)
  deriving DecidableEq, Repr

/-- Modelled from the spec: the signal implementation sources (the ISignal
interface header and signal_impl) are not under src/.  Per the spec data
model (section 3, Signal) the model signal carries the fields handed to
ISignal::Create verbatim.  The warning flags the implementation computes
(SignalExceedsMessageSize and friends) are log-only and not modelled. -/
structure Signal where
  message_size : Nat
  name : String
  multiplexer_indicator : EMultiplexer
  multiplexer_switch_value : Nat
  start_bit : Nat
  bit_size : Nat
  byte_order : EByteOrder
  value_type : EValueType
  factor : Rat
  offset : Rat
  minimum : Rat
  maximum : Rat
  unit : String
  receivers : List String
  attribute_values : List Attribute
  value_descriptions : List ValueEncodingDescription
  extended_value_type : EExtendedValueType
  multiplexer_values : List SignalMultiplexerValue
  deriving DecidableEq, Repr

/-- ISignalGroup::Create stores the arguments
(src/signal_group_impl.cpp). -/
structure SignalGroup where
  message_id : Nat
  name : String
  repetitions : Nat
  signal_names : List String
  deriving DecidableEq, Repr

/-- IMessage::EErrorCode as used by src/message_impl.cpp (the spelling
MuxValeWithoutMuxSignal is the source spelling). -/
inductive MessageErrorCode where
  | NoError
  | MuxValeWithoutMuxSignal
  deriving DecidableEq, Repr

/-- MessageImpl: the stored fields plus the mux-signal pointer (modelled as
an index into signals) and the error code, both computed by the
constructor. -/
structure Message where
  id : Nat
  name : String
  message_size : Nat
  transmitter : String
  message_transmitters : List String
  signals : List Signal
  attribute_values : List Attribute
  signal_groups : List SignalGroup
  mux_signal : Option Nat
  error : MessageErrorCode
  deriving DecidableEq, Repr

/-- The signal scan of the MessageImpl constructor (src/message_impl.cpp):
have_mux_value records that some signal is a MuxValue; the mux-signal
pointer is overwritten by every MuxSwitch signal, so the last one in
declaration order remains. -/
def muxScanAux : List Signal → Nat → Bool → Option Nat → Bool × Option Nat
  | [], _, have_mux_value, mux_signal => (have_mux_value, mux_signal)
  | s :: rest, i, have_mux_value, mux_signal =>
    match s.multiplexer_indicator with
    | .MuxValue => muxScanAux rest (i + 1) true mux_signal
    | .MuxSwitch => muxScanAux rest (i + 1) have_mux_value (some i)
    | .NoMux => muxScanAux rest (i + 1) have_mux_value mux_signal

/-- IMessage::Create, i.e. the MessageImpl constructor: store the arguments
and set the error code iff a MuxValue signal exists and no MuxSwitch signal
was seen. -/
def IMessageCreate (id : Nat) (name : String) (message_size : Nat)
    (transmitter : String) (message_transmitters : List String)
    (signals : List Signal) (attribute_values : List Attribute)
    (signal_groups : List SignalGroup) : Message :=
  let w := muxScanAux signals 0 false none
  { id := id, name := name, message_size := message_size,
    transmitter := transmitter, message_transmitters := message_transmitters,
    signals := signals, attribute_values := attribute_values,
    signal_groups := signal_groups, mux_signal := w.2,
    error := if w.1 ∧ w.2 = none then .MuxValeWithoutMuxSignal else .NoError }

/-- ISignalType::Create stores the arguments (src/signal_type_impl.cpp). -/
structure SignalType where
  name : String
  signal_size : Nat
  byte_order : EByteOrder
  value_type : EValueType
  factor : Rat
  offset : Rat
  minimum : Rat
  maximum : Rat
  unit : String
  default_value : Rat
  value_table : String
  deriving DecidableEq, Repr

/-- IValueTable::Create stores the arguments (src/value_table_impl.cpp). -/
structure ValueTable where
  name : String
  signal_type : Option SignalType
  value_encoding_descriptions : List ValueEncodingDescription
  deriving DecidableEq, Repr

/-- Modelled from the spec: the attribute_definition.h interface header is
not under src/; per the spec (section 3) the value type of an attribute
definition is a tagged union Int, Hex, Float (each with minimum and
maximum), String, Enum (labels). -/
inductive AttributeDefinitionValueType where
  | Int (minimum maximum : Rat)
  | Hex (minimum maximum : Rat)
  | Float (minimum maximum : Rat)
  | Str
  | Enum (values : List String)
  deriving DecidableEq, Repr

/-- IAttributeDefinition::Create stores the arguments
(src/attribute_definition_impl.cpp). -/
structure AttributeDefinition where
  name : String
  object_type : EObjectType
  value_type : AttributeDefinitionValueType
  deriving DecidableEq, Repr

/-- IBitTiming::Create stores the arguments (src/bit_timing_impl.cpp). -/
structure BitTiming where
  baudrate : Nat
  btr1 : Nat
  btr2 : Nat
  deriving DecidableEq, Repr

/-- INode::Create stores the arguments (src/node_impl.cpp). -/
structure Node where
  name : String
  attribute_values : List Attribute
  deriving DecidableEq, Repr

/-- INetwork::Create stores the arguments (src/network_impl.cpp). -/
structure Network where
  version : String
  new_symbols : List String
  bit_timing : BitTiming
  nodes : List Node
  value_tables : List ValueTable
  messages : List Message
  attribute_definitions : List AttributeDefinition
  attribute_defaults : List Attribute
  attribute_values : List Attribute
  deriving DecidableEq, Repr

end Model

/-! ## Lowering (src/dbcast2network.cpp)

The Cache groups attribute-value references by scope.  The C++ uses
unordered maps keyed by node name, message id and signal name; we model the
maps as functions from the keys to the stored lists (empty respectively
null for keys never inserted), with the message-level map holding the
attribute list and its signal-level submaps flattened into separate
fields. -/

abbrev MessageFilter : Type := Nat → String → Bool

abbrev SignalFilter : Type := String → Nat → Bool

structure Cache where
  NetworkAttributes : List AST.AttributeValue_t
  Nodes : String → List AST.AttributeValue_t
  MessageAttributes : Nat → List AST.AttributeValue_t
  SignalAttributes : Nat → String → List AST.AttributeValue_t
  SignalValueDescriptions : Nat → String → Option AST.ValueDescription

def emptyCache : Cache :=
  { NetworkAttributes := [], Nodes := fun _ => [],
    MessageAttributes := fun _ => [], SignalAttributes := fun _ _ => [],
    SignalValueDescriptions := fun _ _ => none }

/-- One step of the attribute-value cache pass of DBCAST2Network. -/
def cacheAttributeValue (cache : Cache) (av : AST.AttributeValue_t) : Cache :=
  match av.type with
  | .Network =>
    { cache with NetworkAttributes := cache.NetworkAttributes ++ [av] }
  | .Node =>
    { cache with Nodes := fun n =>
        if n = av.node_name then cache.Nodes n ++ [av] else cache.Nodes n }
  | .Message =>
    { cache with MessageAttributes := fun i =>
        if i = av.message_id then cache.MessageAttributes i ++ [av]
        else cache.MessageAttributes i }
  | .Signal =>
    { cache with SignalAttributes := fun i s =>
        if i = av.message_id ∧ s = av.signal_name then
          cache.SignalAttributes i s ++ [av]
        else cache.SignalAttributes i s }

/-- One step of the value-description cache pass of DBCAST2Network; a later
entry for the same signal overwrites an earlier one. -/
def cacheValueDescription (cache : Cache) (vd : AST.ValueDescription) : Cache :=
  match vd.type with
  | .Signal =>
    { cache with SignalValueDescriptions := fun i s =>
        if i = vd.message_id ∧ s = vd.object_name then some vd
        else cache.SignalValueDescriptions i s }

/-- Cache build of DBCAST2Network (unfiltered). -/
def buildCache (net : AST.Network) : Cache :=
  let c1 := net.attribute_values.foldl cacheAttributeValue emptyCache
  net.value_descriptions.foldl cacheValueDescription c1

/-- One step of the attribute-value cache pass of DBCAST2NetworkFiltered:
message- and signal-scoped values are inserted only when some message with
that id survives the message filter. -/
def cacheAttributeValueFiltered (net : AST.Network) (mf : MessageFilter)
    (cache : Cache) (av : AST.AttributeValue_t) : Cache :=
  match av.type with
  | .Network =>
    { cache with NetworkAttributes := cache.NetworkAttributes ++ [av] }
  | .Node =>
    { cache with Nodes := fun n =>
        if n = av.node_name then cache.Nodes n ++ [av] else cache.Nodes n }
  | .Message =>
    if net.messages.any (fun m => decide (m.id = av.message_id) && mf m.id m.name) then
      { cache with MessageAttributes := fun i =>
          if i = av.message_id then cache.MessageAttributes i ++ [av]
          else cache.MessageAttributes i }
    else cache
  | .Signal =>
    if net.messages.any (fun m => decide (m.id = av.message_id) && mf m.id m.name) then
      { cache with SignalAttributes := fun i s =>
          if i = av.message_id ∧ s = av.signal_name then
            cache.SignalAttributes i s ++ [av]
          else cache.SignalAttributes i s }
    else cache

/-- Filtered value-description caching with the same surviving-message
guard. -/
def cacheValueDescriptionFiltered (net : AST.Network) (mf : MessageFilter)
    (cache : Cache) (vd : AST.ValueDescription) : Cache :=
  match vd.type with
  | .Signal =>
    if net.messages.any (fun m => decide (m.id = vd.message_id) && mf m.id m.name) then
      { cache with SignalValueDescriptions := fun i s =>
          if i = vd.message_id ∧ s = vd.object_name then some vd
          else cache.SignalValueDescriptions i s }
    else cache

/-- Cache build of DBCAST2NetworkFiltered. -/
def buildCacheFiltered (net : AST.Network) (mf : MessageFilter) : Cache :=
  let c1 := net.attribute_values.foldl (cacheAttributeValueFiltered net mf) emptyCache
  net.value_descriptions.foldl (cacheValueDescriptionFiltered net mf) c1

def getVersion (net : AST.Network) : String := net.version.version

def getNewSymbols (net : AST.Network) : List String := net.new_symbols

/-- getSignalType(): the first signal type whose value table name equals
the table name, lowered to the model record. -/
def getSignalType (net : AST.Network) (vt : AST.ValueTable) :
    Option Model.SignalType :=
  match net.signal_types.find? (fun st => decide (st.value_table = vt.name)) with
  | some st =>
    some { name := st.name, signal_size := st.size,
           byte_order := if st.byte_order = '0' then .BigEndian else .LittleEndian,
           value_type := if st.value_type = '+' then .Unsigned else .Signed,
           factor := st.factor, offset := st.offset, minimum := st.minimum,
           maximum := st.maximum, unit := st.unit,
           default_value := st.default_value, value_table := st.value_table }
  | none => none

def getValueTables (net : AST.Network) : List Model.ValueTable :=
  net.value_tables.map (fun vt =>
    { name := vt.name, signal_type := getSignalType net vt,
      value_encoding_descriptions := vt.descriptions.map
        (fun ved => { value := ved.value, description := ved.description }) })

def getBitTiming (net : AST.Network) : Model.BitTiming :=
  match net.bit_timing with
  | some bt => { baudrate := bt.baudrate, btr1 := bt.btr1, btr2 := bt.btr2 }
  | none => { baudrate := 0, btr1 := 0, btr2 := 0 }

/-- convertAttributeValue(): the std::visit copy of the variant. -/
def convertAttributeValue (v : AST.AttributeValue) : AST.AttributeValue :=
  match v with
  | .i x => .i x
  | .d x => .d x
  | .s x => .s x

/-- getAttributeValues(net, node, cache). -/
def getNodeAttributeValues (net : AST.Network) (n : AST.NodeDef)
    (cache : Cache) : List Model.Attribute :=
  (cache.Nodes n.name).filterMap (fun av =>
    if av.type = .Node ∧ av.node_name = n.name then
      some { name := av.attribute_name, object_type := .Node,
             value := convertAttributeValue av.value }
    else none)

def getNodes (net : AST.Network) (cache : Cache) : List Model.Node :=
  net.nodes.map (fun n =>
    { name := n.name, attribute_values := getNodeAttributeValues net n cache })

/-- getAttributeValues(net, message, signal, cache). -/
def getSignalAttributeValues (net : AST.Network) (m : AST.Message)
    (s : AST.Signal) (cache : Cache) : List Model.Attribute :=
  (cache.SignalAttributes m.id s.name).filterMap (fun av =>
    if av.type = .Signal then
      some { name := av.attribute_name, object_type := .Signal,
             value := convertAttributeValue av.value }
    else none)

/-- getValueDescriptions(net, message, signal, cache). -/
def getValueDescriptions (net : AST.Network) (m : AST.Message)
    (s : AST.Signal) (cache : Cache) : List Model.ValueEncodingDescription :=
  match cache.SignalValueDescriptions m.id s.name with
  | some vd => vd.descriptions.map
      (fun x => { value := x.value, description := x.description })
  | none => []

/-- getSignalExtendedValueType(): first matching entry; code 1 is Float,
code 2 is Double, anything else leaves Integer. -/
def getSignalExtendedValueType (net : AST.Network) (m : AST.Message)
    (s : AST.Signal) : Model.EExtendedValueType :=
  match net.signal_extended_value_types.find?
      (fun sev => decide (sev.message_id = m.id) && decide (sev.signal_name = s.name)) with
  | some sev =>
    match sev.value_type with
    | 1 => .Float
    | 2 => .Double
    | _ => .Integer
  | none => .Integer

/-- getSignalMultiplexerValues(): all matching entries in order. -/
def getSignalMultiplexerValues (net : AST.Network) (s : String) (m : Nat) :
    List Model.SignalMultiplexerValue :=
  (net.signal_multiplexer_values.filter
      (fun g => decide (g.signal_name = s) && decide (g.message_id = m))).map
    (fun g => { switch_name := g.switch_name,
                value_ranges := g.value_ranges.map (fun r => (r.fromVal, r.toVal)) })

/-- getSignals(): lower every AST signal of the message in order.  The
multiplexer indicator maps across one to one; the switch value is taken
only for MuxValue signals. -/
def getSignals (net : AST.Network) (m : AST.Message) (cache : Cache) :
    List Model.Signal :=
  m.signals.map (fun s =>
    { message_size := m.size, name := s.name,
      multiplexer_indicator :=
        match s.mux_type with
        | .None => .NoMux
        | .MuxSwitch => .MuxSwitch
        | .MuxValue => .MuxValue,
      multiplexer_switch_value :=
        match s.mux_type with
        | .MuxValue => s.mux_value
        | _ => 0,
      start_bit := s.start_bit, bit_size := s.length,
      byte_order := if s.byte_order = '0' then .BigEndian else .LittleEndian,
      value_type := if s.value_type = '+' then .Unsigned else .Signed,
      factor := s.factor, offset := s.offset, minimum := s.minimum,
      maximum := s.maximum, unit := s.unit, receivers := s.receivers,
      attribute_values := getSignalAttributeValues net m s cache,
      value_descriptions := getValueDescriptions net m s cache,
      extended_value_type := getSignalExtendedValueType net m s,
      multiplexer_values := getSignalMultiplexerValues net s.name m.id })

/-- getMessageTransmitters(): find_if, i.e. the first BO_TX_BU_ entry whose
message id matches; no entry yields the empty list. -/
def getMessageTransmitters (net : AST.Network) (m : AST.Message) :
    List String :=
  match net.message_transmitters.find? (fun mt => decide (mt.message_id = m.id)) with
  | some mt => mt.transmitters
  | none => []

/-- getAttributeValues(net, message, cache). -/
def getMessageAttributeValues (net : AST.Network) (m : AST.Message)
    (cache : Cache) : List Model.Attribute :=
  (cache.MessageAttributes m.id).filterMap (fun av =>
    if av.type = .Message then
      some { name := av.attribute_name, object_type := .Message,
             value := convertAttributeValue av.value }
    else none)

/-- getSignalGroups(): all SIG_GROUP_ entries with this message id. -/
def getSignalGroups (net : AST.Network) (m : AST.Message) :
    List Model.SignalGroup :=
  (net.signal_groups.filter (fun sg => decide (sg.message_id = m.id))).map
    (fun sg => { message_id := sg.message_id, name := sg.group_name,
                 repetitions := sg.repetitions,
                 signal_names := sg.signal_names })

def getMessages (net : AST.Network) (cache : Cache) : List Model.Message :=
  net.messages.map (fun m =>
    Model.IMessageCreate m.id m.name m.size m.transmitter
      (getMessageTransmitters net m) (getSignals net m cache)
      (getMessageAttributeValues net m cache) (getSignalGroups net m))

/-- getMessagesFiltered(): messages failing the message filter are dropped
entirely; within surviving messages the signals failing the signal filter
are dropped after lowering. -/
def getMessagesFiltered (net : AST.Network) (cache : Cache)
    (mf : MessageFilter) (sf : SignalFilter) : List Model.Message :=
  (net.messages.filter (fun m => mf m.id m.name)).map (fun m =>
    Model.IMessageCreate m.id m.name m.size m.transmitter
      (getMessageTransmitters net m)
      ((getSignals net m cache).filter (fun s => sf s.name m.id))
      (getMessageAttributeValues net m cache) (getSignalGroups net m))

/-- getAttributeDefinitions(): Rel scopes collapse onto their plain
counterparts; a definition whose object type has no case (the
EnvironmentVariable enumerator) is skipped with an error log; an unknown
value-type string leaves the variant default-constructed, modelled as
Int 0 0. -/
def getAttributeDefinitions (net : AST.Network) :
    List Model.AttributeDefinition :=
  net.attribute_definitions.filterMap (fun ad =>
    let object_type : Option Model.EObjectType :=
      match ad.object_type with
      | .Network => some .Network
      | .Node => some .Node
      | .Message => some .Message
      | .Signal => some .Signal
      | .RelNode => some .Node
      | .RelMessage => some .Message
      | .RelSignal => some .Signal
      | .EnvironmentVariable => none
    match object_type with
    | none => none
    | some ot =>
      let value_type : Model.AttributeDefinitionValueType :=
        if ad.value_type = "INT" then
          .Int (ad.min_value.getD 0) (ad.max_value.getD 0)
        else if ad.value_type = "HEX" then
          .Hex (ad.min_value.getD 0) (ad.max_value.getD 0)
        else if ad.value_type = "FLOAT" then
          .Float (ad.min_value.getD 0) (ad.max_value.getD 0)
        else if ad.value_type = "STRING" then .Str
        else if ad.value_type = "ENUM" then .Enum ad.enum_values
        else .Int 0 0
      some { name := ad.name, object_type := ot, value_type := value_type })

def getAttributeDefaults (net : AST.Network) : List Model.Attribute :=
  net.attribute_defaults.map (fun ad =>
    { name := ad.name, object_type := .Network,
      value := convertAttributeValue ad.value })

/-- getAttributeValues(net, cache) for the network scope. -/
def getNetworkAttributeValues (net : AST.Network) (cache : Cache) :
    List Model.Attribute :=
  cache.NetworkAttributes.filterMap (fun av =>
    if av.type = .Network then
      some { name := av.attribute_name, object_type := .Network,
             value := convertAttributeValue av.value }
    else none)

/-- DBCAST2Network(). -/
def DBCAST2Network (net : AST.Network) : Model.Network :=
  let cache := buildCache net
  { version := getVersion net, new_symbols := getNewSymbols net,
    bit_timing := getBitTiming net, nodes := getNodes net cache,
    value_tables := getValueTables net, messages := getMessages net cache,
    attribute_definitions := getAttributeDefinitions net,
    attribute_defaults := getAttributeDefaults net,
    attribute_values := getNetworkAttributeValues net cache }

/-- DBCAST2NetworkFiltered(). -/
def DBCAST2NetworkFiltered (net : AST.Network) (mf : MessageFilter)
    (sf : SignalFilter) : Model.Network :=
  let cache := buildCacheFiltered net mf
  { version := getVersion net, new_symbols := getNewSymbols net,
    bit_timing := getBitTiming net, nodes := getNodes net cache,
    value_tables := getValueTables net,
    messages := getMessagesFiltered net cache mf sf,
    attribute_definitions := getAttributeDefinitions net,
    attribute_defaults := getAttributeDefaults net,
    attribute_values := getNetworkAttributeValues net cache }

/-- INetwork::LoadDBCFromString: parse, then lower through the filtered
pipeline; a parse error becomes a null result (logged). -/
def LoadDBCFromString (content : String) (mf : MessageFilter)
    (sf : SignalFilter) : Option Model.Network :=
  match parse content with
  | .ok ast => some (DBCAST2NetworkFiltered ast mf sf)
  | .error _ => none

/-! ## Definitions supporting the claim analysis

Spec-side characterisations of the string-literal scan, a Rel test on
object types, token-list builders for the signal grammar, projections of
parse results, and the concrete inputs the claims are exercised on. -/

/-- Is the object type one of the Rel variants of the ObjectType enum. -/
def isRelObjectType : AST.ObjectType → Bool
  | .RelNode => true
  | .RelMessage => true
  | .RelSignal => true
  | _ => false

/-- The escape application of the string-literal scan as the claim states
it: a backslash-quote pair contributes a quote, a backslash-backslash pair
a backslash, any other character itself. -/
def escApply : List Char → List Char
  | [] => []
  | '\\' :: '"' :: rest => '"' :: escApply rest
  | '\\' :: '\\' :: rest => '\\' :: escApply rest
  | ch :: rest => ch :: escApply rest

/-- The body of a string literal whose closing quote is missing at end of
input: the escape-aware scan reaches the end without meeting a closing
quote.  An embedded NUL acts as the end-of-input sentinel for the C++
lexer, so a body holding one does not end inside the literal and is
excluded here. -/
def noClosingQuote : List Char → Bool
  | [] => true
  | '\\' :: '"' :: rest => noClosingQuote rest
  | '\\' :: '\\' :: rest => noClosingQuote rest
  | ch :: rest => if ch = '"' || ch = '\x00' then false else noClosingQuote rest

/-- A token at a fixed position, for claim inputs assembled at token level. -/
def tokT (tt : TokenType) (v : String) : Token := ⟨tt, v, 1, 1⟩

/-- An INTEGER token. -/
def tokI (v : String) : Token := ⟨.INTEGER, v, 1, 1⟩

/-- The token tail of an SG_ line after name and multiplex indicator, with
the four numeric fields (factor, offset, minimum, maximum) given as token
lists: colon, 0, pipe, 8, at, 1, plus, then the parenthesised factor and
offset, the bracketed minimum and maximum, and the unit string. -/
def sigNumTail (f o mn mx : List Token) : List Token :=
  [tokT .COLON ":", tokI "0", tokT .PIPE "|", tokI "8", tokT .AT "@",
   tokI "1", tokT .PLUS "+", tokT .LPAREN "("] ++ f ++ [tokT .COMMA ","] ++ o ++
  [tokT .RPAREN ")", tokT .LBRACKET "["] ++ mn ++ [tokT .PIPE "|"] ++ mx ++
  [tokT .RBRACKET "]", tokT .STRING ""]

/-- Did an Except-valued parse step succeed. -/
def isOkB {α : Type} : Except ParseError α → Bool
  | .ok _ => true
  | .error _ => false

/-- The factor of a successfully parsed signal. -/
def resFactor (r : Except ParseError (AST.Signal × List Token)) : Option Rat :=
  match r with
  | .ok w => some w.1.factor
  | .error _ => none

/-- The offset of a successfully parsed signal. -/
def resOffset (r : Except ParseError (AST.Signal × List Token)) : Option Rat :=
  match r with
  | .ok w => some w.1.offset
  | .error _ => none

/-- The minimum of a successfully parsed signal. -/
def resMin (r : Except ParseError (AST.Signal × List Token)) : Option Rat :=
  match r with
  | .ok w => some w.1.minimum
  | .error _ => none

/-- The maximum of a successfully parsed signal. -/
def resMax (r : Except ParseError (AST.Signal × List Token)) : Option Rat :=
  match r with
  | .ok w => some w.1.maximum
  | .error _ => none

/-- A node section written with the optional colon of the grammar. -/
def c1InputColon : String :=
  "VERSION \"\"\nNS_ :\nBS_:\nBU_: NodeA NodeB\n"

/-- The same node section without the colon. -/
def c1InputNoColon : String :=
  "VERSION \"\"\nNS_ :\nBS_:\nBU_ NodeA NodeB\n"

/-- One message whose single signal carries the multiplex literal m0M. -/
def c2InputM0M : String :=
  "VERSION \"\"\nNS_ :\nBS_:\nBU_ N\nBO_ 1 M1: 8 N\n SG_ S m0M : 0|8@1+ (1,0) [0|1] \"\" N\n"

/-- The same message with the plain multiplex literal m0. -/
def c2InputM0 : String :=
  "VERSION \"\"\nNS_ :\nBS_:\nBU_ N\nBO_ 1 M1: 8 N\n SG_ S m0 : 0|8@1+ (1,0) [0|1] \"\" N\n"

/-- A message in an AST network holding two BO_TX_BU_ entries for its id. -/
def c3Msg : AST.Message := { id := 7, name := "M7", size := 8, transmitter := "A" }

/-- The first BO_TX_BU_ entry for message 7. -/
def c3MtFirst : AST.MessageTransmitter := { message_id := 7, transmitters := ["X"] }

/-- The second BO_TX_BU_ entry for message 7, carrying a different list. -/
def c3MtLast : AST.MessageTransmitter :=
  { message_id := 7, transmitters := ["Y", "Z"] }

/-- An AST network with two BO_TX_BU_ entries for the same message id. -/
def c3Ast : AST.Network :=
  { messages := [c3Msg], message_transmitters := [c3MtFirst, c3MtLast] }

/-- Two line comments separated only by a newline, then a keyword. -/
def c4Input : String := "//a\n//b\nVERSION"

/-- A well-formed BA_DEF_REL_ statement with scope keyword BU_SG_REL_. -/
def c6Input : String :=
  "VERSION \"\"\nNS_ :\nBS_:\nBU_ N\nBA_DEF_REL_ BU_SG_REL_ \"attr\" INT 0 1;\n"

/-- The network c6Input parses to. -/
def c6Net : AST.Network := ((parse c6Input).toOption).getD {}

/-- An AST signal that is a multiplexed value with no switch beside it. -/
def c7Sig : AST.Signal := { name := "S", mux_type := .MuxValue, mux_value := 1 }

/-- The message holding c7Sig. -/
def c7Msg : AST.Message :=
  { id := 2, name := "M2", size := 8, transmitter := "N", signals := [c7Sig] }

/-- An AST network whose single message has a MuxValue signal and no
MuxSwitch signal. -/
def c7Ast : AST.Network := { messages := [c7Msg] }

/-- A fallback model message for extracting from computed message lists. -/
def dummyModelMessage : Model.Message :=
  Model.IMessageCreate 0 "" 0 "" [] [] [] []

/-- The single message of the lowering of c7Ast. -/
def c7ModelMsg : Model.Message :=
  ((DBCAST2Network c7Ast).messages).headD dummyModelMessage

/-- An input whose single message declares two multiplexer-switch signals. -/
def c8Input : String :=
  "VERSION \"\"\nNS_ :\nBS_:\nBU_ N\nBO_ 1 M1: 8 N\n SG_ S1 M : 0|8@1+ (1,0) [0|1] \"\" N\n SG_ S2 M : 8|8@1+ (1,0) [0|1] \"\" N\n"

/-- A model signal with the given name and multiplexer indicator and
neutral remaining fields. -/
def mSig (n : String) (mx : Model.EMultiplexer) : Model.Signal :=
  { message_size := 8, name := n, multiplexer_indicator := mx,
    multiplexer_switch_value := 0, start_bit := 0, bit_size := 8,
    byte_order := .LittleEndian, value_type := .Unsigned, factor := 1,
    offset := 0, minimum := 0, maximum := 1, unit := "", receivers := [],
    attribute_values := [], value_descriptions := [],
    extended_value_type := .Integer, multiplexer_values := [] }

/-- A string-literal body with an escaped quote and no closing quote. -/
def c10Body : List Char := ['a', '\\', '"', 'b']

/-! ### Progress of the lexer loops

Each iteration of the C++ tokenize loop consumes at least one input
character.  This makes the fuel handed out by tokenize sufficient, which is
the termination argument of the C++ loop. -/

theorem skipWhitespace_length (cs : List Char) (l c : Nat) :
    (skipWhitespace cs l c).1.length ≤ cs.length := by
  induction cs generalizing l c with
  | nil => simp [skipWhitespace]
  | cons ch rest ih =>
    simp only [skipWhitespace]
    split
    · exact le_trans (ih _ _) (by simp)
    · simp

theorem skipLineComment_length (cs : List Char) (l c : Nat) :
    (skipLineComment cs l c).1.length ≤ cs.length := by
  induction cs generalizing l c with
  | nil => simp [skipLineComment]
  | cons ch rest ih =>
    simp only [skipLineComment]
    split
    · simp
    · exact le_trans (ih _ _) (by simp)

theorem tail_length_le (cs : List Char) : cs.tail.length ≤ cs.length := by
  cases cs <;> simp

theorem tail_tail_length_le (cs : List Char) :
    cs.tail.tail.length ≤ cs.length :=
  le_trans (tail_length_le cs.tail) (tail_length_le cs)

theorem skipBlockComment_length (cs : List Char) (l c : Nat) :
    (skipBlockComment cs l c).1.length ≤ cs.length := by
  induction cs generalizing l c with
  | nil => simp [skipBlockComment]
  | cons ch rest ih =>
    simp only [skipBlockComment]
    split
    · simp
    · split
      · have := tail_length_le rest
        simp only [List.length_cons]
        omega
      · exact le_trans (ih _ _) (by simp)

theorem skipComment_length (cs : List Char) (l c : Nat) :
    (skipComment cs l c).1.length ≤ cs.length := by
  simp only [skipComment]
  split
  · exact le_trans (skipLineComment_length _ _ _) (tail_tail_length_le cs)
  · split
    · exact le_trans (skipBlockComment_length _ _ _) (tail_tail_length_le cs)
    · simp

theorem skipWsCommentWs_length (cs : List Char) (l c : Nat) :
    (skipWsCommentWs cs l c).1.length ≤ cs.length := by
  simp only [skipWsCommentWs]
  exact le_trans (skipWhitespace_length _ _ _)
    (le_trans (skipComment_length _ _ _) (skipWhitespace_length _ _ _))

theorem readWhile_length (p : Char → Bool) (cs : List Char) (l c : Nat) :
    (readWhile p cs l c).2.1.length ≤ cs.length := by
  induction cs generalizing l c with
  | nil => simp [readWhile]
  | cons ch rest ih =>
    simp only [readWhile]
    split
    · exact le_trans (ih _ _) (by simp)
    · simp

theorem readWhile_length_lt (p : Char → Bool) (ch : Char) (rest : List Char)
    (l c : Nat) (h : p ch = true) :
    (readWhile p (ch :: rest) l c).2.1.length < (ch :: rest).length := by
  simp only [readWhile, h, if_pos]
  exact Nat.lt_succ_of_le (readWhile_length p rest _ _)

theorem readFrac_length (cs : List Char) (l c : Nat) :
    (readFrac cs l c).2.2.1.length ≤ cs.length := by
  simp only [readFrac]
  split
  · exact le_trans (readWhile_length _ _ _ _) (tail_length_le cs)
  · simp

theorem readExp_length (cs : List Char) (l c : Nat) :
    (readExp cs l c).2.2.1.length ≤ cs.length := by
  simp only [readExp]
  split
  · split
    · exact le_trans (readWhile_length _ _ _ _) (tail_tail_length_le cs)
    · exact le_trans (readWhile_length _ _ _ _) (tail_length_le cs)
  · simp

theorem readNumberDec_length (cs : List Char) (l c : Nat)
    (hd : isdigit (headD0 cs) = true ∨
          (headD0 cs = '-' ∧ isdigit (headD0 cs.tail) = true)) :
    (readNumberDec cs l c).2.1.length < cs.length := by
  simp only [readNumberDec]
  by_cases hneg : headD0 cs = '-'
  · simp only [if_pos hneg]
    have hdig : isdigit (headD0 cs.tail) = true := by
      rcases hd with h | ⟨_, h⟩
      · rw [hneg] at h; exact absurd h (by decide)
      · exact h
    have hw : (readWhile isdigit cs.tail l (c + 1)).2.1.length < cs.tail.length := by
      cases htl : cs.tail with
      | nil =>
        rw [htl] at hdig
        exact absurd hdig (by decide)
      | cons d rest2 =>
        apply readWhile_length_lt
        rw [htl] at hdig
        simpa [headD0] using hdig
    have hf := readFrac_length (readWhile isdigit cs.tail l (c + 1)).2.1
      (readWhile isdigit cs.tail l (c + 1)).2.2.1
      (readWhile isdigit cs.tail l (c + 1)).2.2.2
    have he := readExp_length
      (readFrac (readWhile isdigit cs.tail l (c + 1)).2.1
        (readWhile isdigit cs.tail l (c + 1)).2.2.1
        (readWhile isdigit cs.tail l (c + 1)).2.2.2).2.2.1
      (readFrac (readWhile isdigit cs.tail l (c + 1)).2.1
        (readWhile isdigit cs.tail l (c + 1)).2.2.1
        (readWhile isdigit cs.tail l (c + 1)).2.2.2).2.2.2.1
      (readFrac (readWhile isdigit cs.tail l (c + 1)).2.1
        (readWhile isdigit cs.tail l (c + 1)).2.2.1
        (readWhile isdigit cs.tail l (c + 1)).2.2.2).2.2.2.2
    have hcs := tail_length_le cs
    try dsimp only
    omega
  · simp only [if_neg hneg]
    have hdig : isdigit (headD0 cs) = true := by
      rcases hd with h | ⟨h, _⟩
      · exact h
      · exact absurd h hneg
    have hw : (readWhile isdigit cs l c).2.1.length < cs.length := by
      cases cs with
      | nil => exact absurd hdig (by decide)
      | cons d rest2 =>
        apply readWhile_length_lt
        simpa [headD0] using hdig
    have hf := readFrac_length (readWhile isdigit cs l c).2.1
      (readWhile isdigit cs l c).2.2.1 (readWhile isdigit cs l c).2.2.2
    have he := readExp_length
      (readFrac (readWhile isdigit cs l c).2.1
        (readWhile isdigit cs l c).2.2.1 (readWhile isdigit cs l c).2.2.2).2.2.1
      (readFrac (readWhile isdigit cs l c).2.1
        (readWhile isdigit cs l c).2.2.1 (readWhile isdigit cs l c).2.2.2).2.2.2.1
      (readFrac (readWhile isdigit cs l c).2.1
        (readWhile isdigit cs l c).2.2.1 (readWhile isdigit cs l c).2.2.2).2.2.2.2
    try dsimp only
    omega

theorem readNumber_length (cs : List Char) (l c : Nat)
    (hd : isdigit (headD0 cs) = true ∨
          (headD0 cs = '-' ∧ isdigit (headD0 cs.tail) = true)) :
    (readNumber cs l c).2.1.length < cs.length := by
  simp only [readNumber]
  split
  · rename_i hx
    simp only [Bool.and_eq_true, Bool.or_eq_true, decide_eq_true_eq] at hx
    have hch : headD0 cs = '0' := hx.1
    have htne : cs.tail ≠ [] := by
      intro he
      rcases hx.2 with h | h
      · rw [he] at h; exact absurd h (by decide)
      · rw [he] at h; exact absurd h (by decide)
    have h1 := readWhile_length isxdigit cs.tail.tail l (c + 2)
    have h2 : cs.tail.tail.length < cs.length := by
      cases cs with
      | nil => exact absurd hch (by decide)
      | cons a r =>
        cases r with
        | nil => simp at htne
        | cons b r2 =>
          have := tail_length_le r2
          simp only [List.tail_cons, List.length_cons]
          omega
    try dsimp only
    omega
  · exact readNumberDec_length cs l c hd

theorem readStringBody_length (cs : List Char) (l c : Nat) :
    (readStringBody cs l c).2.1.length ≤ cs.length := by
  induction cs, l, c using readStringBody.induct with
  | case1 l c => simp [readStringBody]
  | case2 rest l c ih =>
    simp only [readStringBody, List.length_cons]
    omega
  | case3 rest l c ih =>
    simp only [readStringBody, List.length_cons]
    omega
  | case4 ch rest l c h1 h2 hcond =>
    rw [readStringBody.eq_4 l c ch rest h1 h2, if_pos hcond]
  | case5 ch rest l c h1 h2 hcond ih =>
    rw [readStringBody.eq_4 l c ch rest h1 h2, if_neg hcond]
    show (readStringBody rest (advLine ch l) (advCol ch c)).2.1.length ≤
      (ch :: rest).length
    simp only [List.length_cons]
    omega

theorem readString_length (cs : List Char) (l c : Nat)
    (hq : headD0 cs = '"') :
    (readString cs l c).2.1.length < cs.length := by
  have hne : cs ≠ [] := by
    intro he; rw [he] at hq; exact absurd hq (by decide)
  have htl : cs.tail.length < cs.length := by
    cases cs with
    | nil => simp at hne
    | cons a r => simp
  simp only [readString, if_pos hq]
  have hb := readStringBody_length cs.tail l (c + 1)
  split
  · show (readStringBody cs.tail l (c + 1)).2.1.tail.length < cs.length
    have := tail_length_le (readStringBody cs.tail l (c + 1)).2.1
    omega
  · show (readStringBody cs.tail l (c + 1)).2.1.length < cs.length
    omega

theorem readIdentifier_length (cs : List Char) (l c : Nat)
    (ha : (isalpha (headD0 cs) || headD0 cs = '_') = true) :
    (readIdentifier cs l c).2.1.length < cs.length := by
  have hne : cs ≠ [] := by
    intro he; rw [he] at ha; exact absurd ha (by decide)
  have htl : cs.tail.length < cs.length := by
    cases cs with
    | nil => simp at hne
    | cons a r => simp
  have hsplit : (isalpha (headD0 cs) || decide (headD0 cs = '_')) = true := by
    simpa using ha
  simp only [readIdentifier, if_pos hsplit]
  have := readWhile_length (fun x => isalnum x || x = '_') cs.tail
    (advLine (headD0 cs) l) (advCol (headD0 cs) c)
  try dsimp only
  omega

theorem nextTokenCore_some_length (cs : List Char) (l c : Nat) (t : Token)
    (r : List Char) (l2 c2 : Nat)
    (h : nextTokenCore cs l c = (some t, r, l2, c2)) : r.length < cs.length := by
  cases cs with
  | nil => simp [nextTokenCore] at h
  | cons ch rest =>
    simp only [nextTokenCore] at h
    by_cases h0 : ch = '\x00'
    · rw [if_pos h0] at h
      exact absurd h (by simp)
    rw [if_neg h0] at h
    by_cases h1 : ch = ':'
    · rw [if_pos h1] at h
      simp only [Prod.mk.injEq, Option.some.injEq] at h
      obtain ⟨-, hr, -, -⟩ := h
      subst hr
      simp only [List.length_cons]
      omega
    rw [if_neg h1] at h
    by_cases h2 : ch = ';'
    · rw [if_pos h2] at h
      simp only [Prod.mk.injEq, Option.some.injEq] at h
      obtain ⟨-, hr, -, -⟩ := h
      subst hr
      simp only [List.length_cons]
      omega
    rw [if_neg h2] at h
    by_cases h3 : ch = ','
    · rw [if_pos h3] at h
      simp only [Prod.mk.injEq, Option.some.injEq] at h
      obtain ⟨-, hr, -, -⟩ := h
      subst hr
      simp only [List.length_cons]
      omega
    rw [if_neg h3] at h
    by_cases h4 : ch = '@'
    · rw [if_pos h4] at h
      simp only [Prod.mk.injEq, Option.some.injEq] at h
      obtain ⟨-, hr, -, -⟩ := h
      subst hr
      simp only [List.length_cons]
      omega
    rw [if_neg h4] at h
    by_cases h5 : ch = '+'
    · rw [if_pos h5] at h
      simp only [Prod.mk.injEq, Option.some.injEq] at h
      obtain ⟨-, hr, -, -⟩ := h
      subst hr
      simp only [List.length_cons]
      omega
    rw [if_neg h5] at h
    by_cases h6 : (decide (ch = '-') && !isdigit (headD0 rest)) = true
    · rw [if_pos h6] at h
      simp only [Prod.mk.injEq, Option.some.injEq] at h
      obtain ⟨-, hr, -, -⟩ := h
      subst hr
      simp only [List.length_cons]
      omega
    rw [if_neg h6] at h
    by_cases h7 : ch = '|'
    · rw [if_pos h7] at h
      simp only [Prod.mk.injEq, Option.some.injEq] at h
      obtain ⟨-, hr, -, -⟩ := h
      subst hr
      simp only [List.length_cons]
      omega
    rw [if_neg h7] at h
    by_cases h8 : ch = '('
    · rw [if_pos h8] at h
      simp only [Prod.mk.injEq, Option.some.injEq] at h
      obtain ⟨-, hr, -, -⟩ := h
      subst hr
      simp only [List.length_cons]
      omega
    rw [if_neg h8] at h
    by_cases h9 : ch = ')'
    · rw [if_pos h9] at h
      simp only [Prod.mk.injEq, Option.some.injEq] at h
      obtain ⟨-, hr, -, -⟩ := h
      subst hr
      simp only [List.length_cons]
      omega
    rw [if_neg h9] at h
    by_cases h10 : ch = '['
    · rw [if_pos h10] at h
      simp only [Prod.mk.injEq, Option.some.injEq] at h
      obtain ⟨-, hr, -, -⟩ := h
      subst hr
      simp only [List.length_cons]
      omega
    rw [if_neg h10] at h
    by_cases h11 : ch = ']'
    · rw [if_pos h11] at h
      simp only [Prod.mk.injEq, Option.some.injEq] at h
      obtain ⟨-, hr, -, -⟩ := h
      subst hr
      simp only [List.length_cons]
      omega
    rw [if_neg h11] at h
    by_cases h12 : ch = '"'
    · rw [if_pos h12] at h
      simp only [Prod.mk.injEq, Option.some.injEq] at h
      obtain ⟨-, hr, -, -⟩ := h
      subst hr
      exact readString_length (ch :: rest) l c (by simp [headD0, h12])
    rw [if_neg h12] at h
    by_cases h13 : (isdigit ch || decide (ch = '-') && isdigit (headD0 rest)) = true
    · rw [if_pos h13] at h
      simp only [Prod.mk.injEq, Option.some.injEq] at h
      obtain ⟨-, hr, -, -⟩ := h
      subst hr
      apply readNumber_length (ch :: rest) l c
      simp only [Bool.or_eq_true, Bool.and_eq_true, decide_eq_true_eq] at h13
      rcases h13 with hx | ⟨hx1, hx2⟩
      · left; simpa [headD0] using hx
      · right
        constructor
        · simpa [headD0] using hx1
        · simpa [headD0] using hx2
    rw [if_neg h13] at h
    by_cases h14 : (isalpha ch || decide (ch = '_')) = true
    · rw [if_pos h14] at h
      simp only [Prod.mk.injEq, Option.some.injEq] at h
      obtain ⟨-, hr, -, -⟩ := h
      subst hr
      apply readIdentifier_length (ch :: rest) l c
      simp only [Bool.or_eq_true, decide_eq_true_eq] at h14
      rcases h14 with hx | hx
      · simp [headD0, hx]
      · simp [headD0, hx]
    rw [if_neg h14] at h
    simp only [Prod.mk.injEq, Option.some.injEq] at h
    obtain ⟨-, hr, -, -⟩ := h
    subst hr
    simp only [List.length_cons]
    omega

theorem nextToken_some_length (cs : List Char) (l c : Nat) (t : Token)
    (r : List Char) (l2 c2 : Nat)
    (h : nextToken cs l c = (some t, r, l2, c2)) : r.length < cs.length := by
  simp only [nextToken] at h
  have h1 := skipWsCommentWs_length cs l c
  have h2 := nextTokenCore_some_length (skipWsCommentWs cs l c).1
    (skipWsCommentWs cs l c).2.1 (skipWsCommentWs cs l c).2.2 t r l2 c2 h
  omega

/-- Fuel stability of the tokenizer: any fuel exceeding the input length
yields the same result, i.e. the C++ loop terminates after at most
length-many iterations and our fuelled model computes its full run. -/
theorem tokenizeLoop_fuel_stable (fuel1 fuel2 : Nat) (cs : List Char)
    (l c : Nat) (h1 : cs.length < fuel1) (h2 : cs.length < fuel2) :
    tokenizeLoop fuel1 cs l c = tokenizeLoop fuel2 cs l c := by
  induction fuel1 generalizing fuel2 cs l c with
  | zero => omega
  | succ f1 ih =>
    cases fuel2 with
    | zero => omega
    | succ f2 =>
      simp only [tokenizeLoop]
      split
      · rfl
      · rename_i hne
        rcases hnt : nextToken cs l c with ⟨o, r, l3, c3⟩
        cases o with
        | none => rfl
        | some t =>
          have hr := nextToken_some_length cs l c t r l3 c3 hnt
          dsimp only
          rw [ih f2 r l3 c3 (by omega) (by omega)]

/-! ## The claims -/

set_option maxRecDepth 40000

set_option maxHeartbeats 1600000

theorem readStringBody_noClose (cs : List Char) (l c : Nat)
    (h : noClosingQuote cs = true) :
    (readStringBody cs l c).1 = escApply cs ∧ (readStringBody cs l c).2.1 = [] := by
  induction cs, l, c using readStringBody.induct with
  | case1 l c => simp [readStringBody, escApply]
  | case2 rest l c ih =>
    simp only [noClosingQuote] at h
    have w := ih h
    simp only [readStringBody, escApply]
    exact ⟨by rw [w.1], w.2⟩
  | case3 rest l c ih =>
    simp only [noClosingQuote] at h
    have w := ih h
    simp only [readStringBody, escApply]
    exact ⟨by rw [w.1], w.2⟩
  | case4 ch rest l c h1 h2 hcond =>
    rw [noClosingQuote.eq_4 ch rest h1 h2, if_pos hcond] at h
    exact absurd h (by simp)
  | case5 ch rest l c h1 h2 hcond ih =>
    rw [noClosingQuote.eq_4 ch rest h1 h2, if_neg hcond] at h
    have w := ih h
    rw [readStringBody.eq_4 l c ch rest h1 h2, if_neg hcond,
      escApply.eq_4 ch rest h1 h2]
    exact ⟨by show ch :: _ = _; rw [w.1], w.2⟩

/-- C10: an input that ends inside a double-quoted string literal lexes
without failing: the scan yields a STRING token holding every character
after the opening quote with the backslash-quote and backslash-backslash
escapes applied and consumes the rest of the input; the token stream of any
input ends in an END_OF_FILE token; and the tokenize loop terminates within
the fuel tokenize hands it. -/
theorem claimC10_unterminated_string_literal :
    (∀ (body : List Char) (l c : Nat), noClosingQuote body = true →
      (readString ('"' :: body) l c).1 =
        Token.mk .STRING (String.mk (escApply body)) l c ∧
      (readString ('"' :: body) l c).2.1 = []) ∧
    (∀ input : String, ((tokenize input).getLastD eofTok).type = .END_OF_FILE) ∧
    (∀ (input : String) (fuel : Nat), input.toList.length < fuel →
      tokenizeLoop fuel input.toList 1 1 =
        tokenizeLoop (input.toList.length + 1) input.toList 1 1) := by
  refine ⟨?_, ?_, ?_⟩
  · intro body l c h
    obtain ⟨h1, h2⟩ := readStringBody_noClose body l (c + 1) h
    unfold readString
    rw [if_pos (show headD0 ('"' :: body) = '"' from rfl)]
    dsimp only [List.tail_cons]
    rw [h2, if_neg (show ¬ headD0 ([] : List Char) = '"' by decide), h1]
    exact ⟨rfl, rfl⟩
  · intro input
    simp only [tokenize, List.getLastD_concat]
  · intro input fuel h
    exact tokenizeLoop_fuel_stable fuel (input.toList.length + 1) input.toList 1 1 h
      (by omega)

theorem claimC10_unterminated_string_literal_witness :
    noClosingQuote c10Body = true ∧
    (readString ('"' :: c10Body) 1 1).1 =
      Token.mk .STRING (String.mk (escApply c10Body)) 1 1 ∧
    (readString ('"' :: c10Body) 1 1).2.1 = [] :=
  ⟨by decide, (claimC10_unterminated_string_literal.1 c10Body 1 1 (by decide)).1,
   (claimC10_unterminated_string_literal.1 c10Body 1 1 (by decide)).2⟩

/-- C1: the claim fails on the colon form: BU_: NodeA NodeB parses with an
empty node list, while BU_ NodeA NodeB parses to NodeA, NodeB.  parseNodes
stops at the colon and the statement dispatcher then silently skips the
orphaned colon and identifier tokens. -/
theorem claimC1_colon_form_drops_nodes :
    (parse c1InputColon).toOption.map (fun n => n.nodes.map (fun nd => nd.name))
      = some [] ∧
    (parse c1InputNoColon).toOption.map (fun n => n.nodes.map (fun nd => nd.name))
      = some ["NodeA", "NodeB"] := by decide

/-- C4: two consecutive line comments are not both skipped: each tokenize
iteration skips at most one comment, so the second comment's characters
leak as UNKNOWN and IDENTIFIER tokens instead of being dropped. -/
theorem claimC4_consecutive_comments_leak :
    (tokenize c4Input).map (fun t => (t.type, t.value)) =
      [(.UNKNOWN, "/"), (.UNKNOWN, "/"), (.IDENTIFIER, "b"),
       (.VERSION, "VERSION"), (.END_OF_FILE, "")] := by decide

theorem stoullM_digits (ds : List Char) (hne : ds ≠ [])
    (hdig : ∀ ch ∈ ds, isdigit ch = true) :
    stoullM (String.mk ds) = digitsToNat ds % 2 ^ 64 := by
  match ds, hne with
  | ch :: r, _ =>
    have hch : isdigit ch = true := hdig ch (by simp)
    have hm : ch ≠ '-' ∧ ch ≠ '+' := by
      constructor <;> · rintro rfl; simp [isdigit] at hch
    have htw : (ch :: r).takeWhile isdigit = ch :: r :=
      List.takeWhile_eq_self_iff.mpr hdig
    unfold stoullM
    split
    · rename_i r2 heq
      exact absurd (List.cons.injEq .. ▸ heq).1 hm.1
    · rename_i r2 heq
      exact absurd (List.cons.injEq .. ▸ heq).1 hm.2
    · rename_i heq h1 h2
      show digitsToNat (((String.mk (ch :: r)).toList).takeWhile isdigit) % 2 ^ 64 = _
      rw [show (String.mk (ch :: r)).toList = ch :: r from rfl, htw]

/-- C2 (counterexample): the multiplex literals m0M and m0 are parsed to the
very same result, multiplex value 0 with nothing else recorded, and a full
parse of the m0M form records only mux_type MuxValue and mux_value 0; the
deeper-level switch role the claim requires is recorded nowhere. -/
theorem claimC2_m0M_counterexample :
    parseSignalMux [tokT .MUX_m "m0M"] = parseSignalMux [tokT .MUX_m "m0"] ∧
    parseSignalMux [tokT .MUX_m "m0M"] = (.MuxValue, 0, []) ∧
    (parse c2InputM0M).toOption.map
        (fun n => n.messages.map (fun m =>
          m.signals.map (fun s => (s.mux_type, s.mux_value))))
      = some [[(.MuxValue, 0)]] := by decide

/-- C2 (amended): a multiplex indicator m digits M yields multiplex value
Value(n) where n is the digit run read as a number; no further switch role
is recorded (the source notes the missing deeper-level switch support in a
comment). -/
theorem claimC2_mux_value_literal (ds : List Char) (rest : List Token)
    (i j : Nat) (hne : ds ≠ []) (hdig : ∀ ch ∈ ds, isdigit ch = true) :
    parseSignalMux (Token.mk .MUX_m (String.mk ('m' :: ds ++ ['M'])) i j :: rest) =
      (.MuxValue, digitsToNat ds % 2 ^ 64, rest) := by
  have hcur : cur (Token.mk .MUX_m (String.mk ('m' :: ds ++ ['M'])) i j :: rest) =
      Token.mk .MUX_m (String.mk ('m' :: ds ++ ['M'])) i j := rfl
  unfold parseSignalMux
  rw [hcur]
  rw [if_neg (by simp)]
  rw [if_pos rfl]
  have hback : strBack (String.mk ('m' :: ds ++ ['M'])) = 'M' := by
    show ('m' :: ds ++ ['M']).getLastD '\x00' = 'M'
    exact List.getLastD_concat '\x00' 'M' ('m' :: ds)
  rw [if_pos hback]
  have hsub : substrM (String.mk ('m' :: ds ++ ['M'])) 1
      ((String.mk ('m' :: ds ++ ['M'])).length - 2) = String.mk ds := by
    show String.mk (((('m' :: ds ++ ['M'])).drop 1).take
      (('m' :: ds ++ ['M']).length - 2)) = String.mk ds
    have : ('m' :: ds ++ ['M']).length - 2 = ds.length := by
      simp [List.length_append]
    rw [this]
    show String.mk ((ds ++ ['M']).take ds.length) = String.mk ds
    rw [List.take_left]
  rw [hsub, stoullM_digits ds hne hdig]
  rfl

theorem claimC2_mux_value_literal_witness :
    parseSignalMux [Token.mk .MUX_m (String.mk ('m' :: ['1', '2'] ++ ['M'])) 1 1] =
      (.MuxValue, digitsToNat ['1', '2'] % 2 ^ 64, []) :=
  claimC2_mux_value_literal ['1', '2'] [] 1 1 (by decide) (by decide)

theorem find_first {α : Type} (p : α → Bool) (pre post : List α) (x : α)
    (hpre : ∀ y ∈ pre, p y = false) (hx : p x = true) :
    (pre ++ x :: post).find? p = some x := by
  induction pre with
  | nil => simp [List.find?_cons_of_pos _ hx]
  | cons a t ih =>
    have ha : p a = false := hpre a (by simp)
    rw [List.cons_append, List.find?_cons_of_neg _ (by simp [ha])]
    exact ih (fun y hy => hpre y (by simp [hy]))

/-- C3 (counterexample): with two BO_TX_BU_ entries for message 7, the
lowered transmitter list is the first entry's list, not the last one's. -/
theorem claimC3_last_wins_counterexample :
    getMessageTransmitters c3Ast c3Msg = c3MtFirst.transmitters ∧
    ¬ getMessageTransmitters c3Ast c3Msg = c3MtLast.transmitters := by decide

/-- C3 (amended): when several BO_TX_BU_ entries carry the message's id, the
lowered transmitter list is that of the first such entry in declaration
order (std::find_if). -/
theorem claimC3_first_transmitter_entry_wins (net : AST.Network)
    (m : AST.Message) (pre post : List AST.MessageTransmitter)
    (mt : AST.MessageTransmitter)
    (hsplit : net.message_transmitters = pre ++ mt :: post)
    (hpre : ∀ x ∈ pre, decide (x.message_id = m.id) = false)
    (hmt : mt.message_id = m.id) :
    getMessageTransmitters net m = mt.transmitters := by
  unfold getMessageTransmitters
  rw [hsplit, find_first _ pre post mt hpre (by simp [hmt])]

theorem claimC3_first_transmitter_entry_wins_witness :
    getMessageTransmitters c3Ast c3Msg = c3MtFirst.transmitters :=
  claimC3_first_transmitter_entry_wins c3Ast c3Msg [] [c3MtLast] c3MtFirst
    rfl (by simp) (by decide)

/-- C5 (counterexample): a factor written as a standalone MINUS token before
the number is rejected, and a minimum preceded by a standalone PLUS token is
rejected; the signal parser does not accept a sign everywhere the grammar
needs a num. -/
theorem claimC5_sign_counterexample :
    isOkB (parseSignalAfterMux {} "S" .None 0
        (sigNumTail [tokT .MINUS "-", tokI "1"] [tokI "0"] [tokI "0"] [tokI "1"]))
      = false ∧
    isOkB (parseSignalAfterMux {} "S" .None 0
        (sigNumTail [tokI "1"] [tokI "0"] [tokT .PLUS "+", tokI "0"] [tokI "1"]))
      = false := by decide

/-- C5 (amended): per numeric field of an SG_ declaration: the factor
accepts a bare Integer or Float token and no standalone sign at all; the
offset and the minimum additionally accept a standalone MINUS (applied as
sign) but reject a standalone PLUS; the maximum accepts MINUS and PLUS. -/
theorem claimC5_sign_handling (v : String) :
    resFactor (parseSignalAfterMux {} "S" .None 0
        (sigNumTail [tokI v] [tokI "0"] [tokI "0"] [tokI "1"]))
      = some (stodM v) ∧
    isOkB (parseSignalAfterMux {} "S" .None 0
        (sigNumTail [tokT .MINUS "-", tokI v] [tokI "0"] [tokI "0"] [tokI "1"]))
      = false ∧
    isOkB (parseSignalAfterMux {} "S" .None 0
        (sigNumTail [tokT .PLUS "+", tokI v] [tokI "0"] [tokI "0"] [tokI "1"]))
      = false ∧
    resOffset (parseSignalAfterMux {} "S" .None 0
        (sigNumTail [tokI "1"] [tokT .MINUS "-", tokI v] [tokI "0"] [tokI "1"]))
      = some (-stodM v) ∧
    isOkB (parseSignalAfterMux {} "S" .None 0
        (sigNumTail [tokI "1"] [tokT .PLUS "+", tokI v] [tokI "0"] [tokI "1"]))
      = false ∧
    resMin (parseSignalAfterMux {} "S" .None 0
        (sigNumTail [tokI "1"] [tokI "0"] [tokT .MINUS "-", tokI v] [tokI "1"]))
      = some (-stodM v) ∧
    isOkB (parseSignalAfterMux {} "S" .None 0
        (sigNumTail [tokI "1"] [tokI "0"] [tokT .PLUS "+", tokI v] [tokI "1"]))
      = false ∧
    resMax (parseSignalAfterMux {} "S" .None 0
        (sigNumTail [tokI "1"] [tokI "0"] [tokI "0"] [tokT .MINUS "-", tokI v]))
      = some (-stodM v) ∧
    resMax (parseSignalAfterMux {} "S" .None 0
        (sigNumTail [tokI "1"] [tokI "0"] [tokI "0"] [tokT .PLUS "+", tokI v]))
      = some (stodM v) :=
  ⟨rfl, rfl, rfl, rfl, rfl, rfl, rfl, rfl, rfl⟩

theorem muxScanAux_fst (sigs : List Model.Signal) (i : Nat) (b : Bool)
    (o : Option Nat) :
    (Model.muxScanAux sigs i b o).1 =
      (b || sigs.any (fun s => decide (s.multiplexer_indicator = .MuxValue))) := by
  induction sigs generalizing i b o with
  | nil => simp [Model.muxScanAux]
  | cons s rest ih =>
    cases hs : s.multiplexer_indicator <;>
      simp [Model.muxScanAux, hs, ih, Bool.or_assoc]

theorem muxScanAux_snd_none (sigs : List Model.Signal) (i : Nat) (b : Bool)
    (o : Option Nat) :
    ((Model.muxScanAux sigs i b o).2 = none ↔
      (o = none ∧ sigs.any (fun s =>
        decide (s.multiplexer_indicator = .MuxSwitch)) = false)) := by
  induction sigs generalizing i b o with
  | nil => simp [Model.muxScanAux]
  | cons s rest ih =>
    cases hs : s.multiplexer_indicator <;>
      simp [Model.muxScanAux, hs, ih]

theorem IMessageCreate_error_iff (id : Nat) (name : String) (sz : Nat)
    (tx : String) (mts : List String) (sigs : List Model.Signal)
    (avs : List Model.Attribute) (sgs : List Model.SignalGroup) :
    ((Model.IMessageCreate id name sz tx mts sigs avs sgs).error =
        .MuxValeWithoutMuxSignal ↔
      (sigs.any (fun s => decide (s.multiplexer_indicator = .MuxValue)) = true ∧
       sigs.any (fun s => decide (s.multiplexer_indicator = .MuxSwitch)) = false)) := by
  show ((if (Model.muxScanAux sigs 0 false none).1 ∧
        (Model.muxScanAux sigs 0 false none).2 = none then
          Model.MessageErrorCode.MuxValeWithoutMuxSignal
        else Model.MessageErrorCode.NoError) = .MuxValeWithoutMuxSignal ↔ _)
  have hsnd := muxScanAux_snd_none sigs 0 false none
  simp only [muxScanAux_fst, Bool.false_or]
  by_cases hv : sigs.any
      (fun s => decide (s.multiplexer_indicator = Model.EMultiplexer.MuxValue)) = true
  · by_cases hw : sigs.any
        (fun s => decide (s.multiplexer_indicator = Model.EMultiplexer.MuxSwitch)) = false
    · rw [if_pos ⟨hv, hsnd.mpr ⟨rfl, hw⟩⟩]
      simp [hv, hw]
    · rw [if_neg (fun hc => hw (hsnd.mp hc.2).2)]
      simp [hw]
  · rw [if_neg (fun hc => hv hc.1)]
    simp [hv]

/-- C7: a lowered message's error code is MuxValeWithoutMuxSignal exactly
when some of its signals carries multiplex Value and none carries multiplex
Switch; otherwise it is NoError. -/
theorem claimC7_mux_error_iff (net : AST.Network) (m : Model.Message)
    (hm : m ∈ (DBCAST2Network net).messages) :
    (m.error = .MuxValeWithoutMuxSignal ↔
      (m.signals.any (fun s => decide (s.multiplexer_indicator = .MuxValue)) = true ∧
       m.signals.any (fun s => decide (s.multiplexer_indicator = .MuxSwitch)) = false)) := by
  obtain ⟨am, ham, rfl⟩ := List.mem_map.mp hm
  exact IMessageCreate_error_iff am.id am.name am.size am.transmitter
    (getMessageTransmitters net am) (getSignals net am (buildCache net))
    (getMessageAttributeValues net am (buildCache net)) (getSignalGroups net am)

theorem claimC7_mux_error_iff_witness :
    (c7ModelMsg.error = .MuxValeWithoutMuxSignal ↔
      (c7ModelMsg.signals.any
          (fun s => decide (s.multiplexer_indicator = .MuxValue)) = true ∧
       c7ModelMsg.signals.any
          (fun s => decide (s.multiplexer_indicator = .MuxSwitch)) = false)) :=
  claimC7_mux_error_iff c7Ast c7ModelMsg (by decide)

theorem muxScanAux_append (xs ys : List Model.Signal) (i : Nat) (b : Bool)
    (o : Option Nat) :
    Model.muxScanAux (xs ++ ys) i b o =
      Model.muxScanAux ys (i + xs.length)
        (Model.muxScanAux xs i b o).1 (Model.muxScanAux xs i b o).2 := by
  induction xs generalizing i b o with
  | nil => simp [Model.muxScanAux]
  | cons s rest ih =>
    cases hs : s.multiplexer_indicator <;>
      simp [Model.muxScanAux, hs, ih, Nat.add_assoc, Nat.add_comm 1 rest.length]

theorem muxScanAux_snd_no_switch (ys : List Model.Signal) (j : Nat) (b : Bool)
    (o : Option Nat)
    (h : ∀ t ∈ ys, t.multiplexer_indicator ≠ .MuxSwitch) :
    (Model.muxScanAux ys j b o).2 = o := by
  induction ys generalizing j b o with
  | nil => rfl
  | cons s rest ih =>
    have hs := h s (by simp)
    cases hsind : s.multiplexer_indicator with
    | MuxSwitch => exact absurd hsind hs
    | NoMux =>
      simp only [Model.muxScanAux, hsind]
      exact ih (j + 1) b o (fun t ht => h t (by simp [ht]))
    | MuxValue =>
      simp only [Model.muxScanAux, hsind]
      exact ih (j + 1) true o (fun t ht => h t (by simp [ht]))

/-- C8 (counterexample): a message with two M-marked signals parses and
lowers without complaint: the lowered message carries two multiplex-Switch
signals, so more than one Switch signal per message is possible. -/
theorem claimC8_two_switches_counterexample :
    ((LoadDBCFromString c8Input (fun _ _ => true) (fun _ _ => true)).map
        (fun n => n.messages.map (fun m =>
          m.signals.countP
            (fun s => decide (s.multiplexer_indicator = Model.EMultiplexer.MuxSwitch)))))
      = some [2] ∧ ¬ (2 ≤ 1) := by
  constructor
  · decide
  · decide

/-- C8 (amended): any number of multiplex-Switch signals is accepted; the
message's mux-signal pointer is overwritten by each one in declaration
order, so it ends at the last Switch signal. -/
theorem claimC8_last_switch_wins (id : Nat) (name : String) (sz : Nat)
    (tx : String) (mts : List String) (avs : List Model.Attribute)
    (sgs : List Model.SignalGroup) (pre post : List Model.Signal)
    (s : Model.Signal) (hs : s.multiplexer_indicator = .MuxSwitch)
    (hpost : ∀ t ∈ post, t.multiplexer_indicator ≠ .MuxSwitch) :
    (Model.IMessageCreate id name sz tx mts (pre ++ s :: post) avs sgs).mux_signal
      = some pre.length := by
  show (Model.muxScanAux (pre ++ s :: post) 0 false none).2 = some pre.length
  rw [muxScanAux_append]
  have hstep : Model.muxScanAux (s :: post) (0 + pre.length)
      (Model.muxScanAux pre 0 false none).1 (Model.muxScanAux pre 0 false none).2 =
      Model.muxScanAux post (0 + pre.length + 1)
        (Model.muxScanAux pre 0 false none).1 (some (0 + pre.length)) := by
    simp only [Model.muxScanAux, hs]
  rw [hstep, muxScanAux_snd_no_switch post _ _ _ hpost]
  simp

theorem claimC8_last_switch_wins_witness :
    (Model.IMessageCreate 1 "M" 8 "N" []
        ([] ++ mSig "B" .MuxSwitch :: []) [] []).mux_signal = some ([] : List Model.Signal).length :=
  claimC8_last_switch_wins 1 "M" 8 "N" [] [] [] [] []
    (mSig "B" .MuxSwitch) rfl (by simp)

theorem cacheStep_Nodes (net : AST.Network) (mf : MessageFilter) (c c' : Cache)
    (av : AST.AttributeValue_t) (hN : c.Nodes = c'.Nodes) :
    (cacheAttributeValue c av).Nodes =
      (cacheAttributeValueFiltered net mf c' av).Nodes := by
  cases hav : av.type with
  | Network =>
    simp only [cacheAttributeValue, cacheAttributeValueFiltered, hav]
    exact hN
  | Node =>
    simp only [cacheAttributeValue, cacheAttributeValueFiltered, hav]
    rw [hN]
  | Message =>
    simp only [cacheAttributeValue, cacheAttributeValueFiltered, hav]
    split <;> exact hN
  | Signal =>
    simp only [cacheAttributeValue, cacheAttributeValueFiltered, hav]
    split <;> exact hN

theorem cacheStep_NetworkAttributes (net : AST.Network) (mf : MessageFilter)
    (c c' : Cache) (av : AST.AttributeValue_t)
    (hA : c.NetworkAttributes = c'.NetworkAttributes) :
    (cacheAttributeValue c av).NetworkAttributes =
      (cacheAttributeValueFiltered net mf c' av).NetworkAttributes := by
  cases hav : av.type with
  | Network =>
    simp only [cacheAttributeValue, cacheAttributeValueFiltered, hav]
    rw [hA]
  | Node =>
    simp only [cacheAttributeValue, cacheAttributeValueFiltered, hav]
    exact hA
  | Message =>
    simp only [cacheAttributeValue, cacheAttributeValueFiltered, hav]
    split <;> exact hA
  | Signal =>
    simp only [cacheAttributeValue, cacheAttributeValueFiltered, hav]
    split <;> exact hA

theorem cacheFold_Nodes (net : AST.Network) (mf : MessageFilter)
    (avs : List AST.AttributeValue_t) : ∀ (c c' : Cache), c.Nodes = c'.Nodes →
    (avs.foldl cacheAttributeValue c).Nodes =
      (avs.foldl (cacheAttributeValueFiltered net mf) c').Nodes := by
  induction avs with
  | nil => intro c c' hN; exact hN
  | cons av rest ih =>
    intro c c' hN
    simp only [List.foldl_cons]
    exact ih _ _ (cacheStep_Nodes net mf c c' av hN)

theorem cacheFold_NetworkAttributes (net : AST.Network) (mf : MessageFilter)
    (avs : List AST.AttributeValue_t) : ∀ (c c' : Cache),
    c.NetworkAttributes = c'.NetworkAttributes →
    (avs.foldl cacheAttributeValue c).NetworkAttributes =
      (avs.foldl (cacheAttributeValueFiltered net mf) c').NetworkAttributes := by
  induction avs with
  | nil => intro c c' hA; exact hA
  | cons av rest ih =>
    intro c c' hA
    simp only [List.foldl_cons]
    exact ih _ _ (cacheStep_NetworkAttributes net mf c c' av hA)

theorem vdStep_Nodes (net : AST.Network) (mf : MessageFilter) (c c' : Cache)
    (vd : AST.ValueDescription) (hN : c.Nodes = c'.Nodes) :
    (cacheValueDescription c vd).Nodes =
      (cacheValueDescriptionFiltered net mf c' vd).Nodes := by
  cases hvd : vd.type with
  | Signal =>
    simp only [cacheValueDescription, cacheValueDescriptionFiltered, hvd]
    split <;> exact hN

theorem vdStep_NetworkAttributes (net : AST.Network) (mf : MessageFilter)
    (c c' : Cache) (vd : AST.ValueDescription)
    (hA : c.NetworkAttributes = c'.NetworkAttributes) :
    (cacheValueDescription c vd).NetworkAttributes =
      (cacheValueDescriptionFiltered net mf c' vd).NetworkAttributes := by
  cases hvd : vd.type with
  | Signal =>
    simp only [cacheValueDescription, cacheValueDescriptionFiltered, hvd]
    split <;> exact hA

theorem vdFold_Nodes (net : AST.Network) (mf : MessageFilter)
    (vds : List AST.ValueDescription) : ∀ (c c' : Cache), c.Nodes = c'.Nodes →
    (vds.foldl cacheValueDescription c).Nodes =
      (vds.foldl (cacheValueDescriptionFiltered net mf) c').Nodes := by
  induction vds with
  | nil => intro c c' hN; exact hN
  | cons vd rest ih =>
    intro c c' hN
    simp only [List.foldl_cons]
    exact ih _ _ (vdStep_Nodes net mf c c' vd hN)

theorem vdFold_NetworkAttributes (net : AST.Network) (mf : MessageFilter)
    (vds : List AST.ValueDescription) : ∀ (c c' : Cache),
    c.NetworkAttributes = c'.NetworkAttributes →
    (vds.foldl cacheValueDescription c).NetworkAttributes =
      (vds.foldl (cacheValueDescriptionFiltered net mf) c').NetworkAttributes := by
  induction vds with
  | nil => intro c c' hA; exact hA
  | cons vd rest ih =>
    intro c c' hA
    simp only [List.foldl_cons]
    exact ih _ _ (vdStep_NetworkAttributes net mf c c' vd hA)

theorem buildCacheFiltered_Nodes (net : AST.Network) (mf : MessageFilter) :
    (buildCache net).Nodes = (buildCacheFiltered net mf).Nodes := by
  unfold buildCache buildCacheFiltered
  exact vdFold_Nodes net mf net.value_descriptions _ _
    (cacheFold_Nodes net mf net.attribute_values _ _ rfl)

theorem buildCacheFiltered_NetworkAttributes (net : AST.Network)
    (mf : MessageFilter) :
    (buildCache net).NetworkAttributes =
      (buildCacheFiltered net mf).NetworkAttributes := by
  unfold buildCache buildCacheFiltered
  exact vdFold_NetworkAttributes net mf net.value_descriptions _ _
    (cacheFold_NetworkAttributes net mf net.attribute_values _ _ rfl)

/-- C9: the filtered lowering agrees with the unfiltered lowering on every
network-level component: version, new symbols, bit timing, nodes with their
attributes, value tables, attribute definitions, attribute defaults and
network-scoped attribute values; only the message list may differ. -/
theorem claimC9_filtered_preserves_network_level (net : AST.Network)
    (mf : MessageFilter) (sf : SignalFilter) :
    (DBCAST2NetworkFiltered net mf sf).version = (DBCAST2Network net).version ∧
    (DBCAST2NetworkFiltered net mf sf).new_symbols =
      (DBCAST2Network net).new_symbols ∧
    (DBCAST2NetworkFiltered net mf sf).bit_timing =
      (DBCAST2Network net).bit_timing ∧
    (DBCAST2NetworkFiltered net mf sf).nodes = (DBCAST2Network net).nodes ∧
    (DBCAST2NetworkFiltered net mf sf).value_tables =
      (DBCAST2Network net).value_tables ∧
    (DBCAST2NetworkFiltered net mf sf).attribute_definitions =
      (DBCAST2Network net).attribute_definitions ∧
    (DBCAST2NetworkFiltered net mf sf).attribute_defaults =
      (DBCAST2Network net).attribute_defaults ∧
    (DBCAST2NetworkFiltered net mf sf).attribute_values =
      (DBCAST2Network net).attribute_values := by
  refine ⟨rfl, rfl, rfl, ?_, rfl, rfl, rfl, ?_⟩
  · show getNodes net (buildCacheFiltered net mf) = getNodes net (buildCache net)
    unfold getNodes getNodeAttributeValues
    rw [buildCacheFiltered_Nodes]
  · show getNetworkAttributeValues net (buildCacheFiltered net mf) =
      getNetworkAttributeValues net (buildCache net)
    unfold getNetworkAttributeValues
    rw [buildCacheFiltered_NetworkAttributes]

theorem parseAttributeDefinition_not_rel (ts0 ts1 : List Token)
    (ad : AST.AttributeDefinition)
    (h : parseAttributeDefinition ts0 = .ok (ad, ts1)) :
    isRelObjectType ad.object_type = false := by
  unfold parseAttributeDefinition at h
  simp only [bind, Except.bind, pure, Except.pure] at h
  repeat' split at h
  all_goals simp_all
  all_goals (obtain ⟨rfl, rfl⟩ := h; simp [isRelObjectType])

theorem parseLoop_not_rel (fuel : Nat) : ∀ (ts : List Token)
    (net net2 : AST.Network) (ts2 : List Token),
    (∀ ad ∈ net.attribute_definitions, isRelObjectType ad.object_type = false) →
    parseLoop fuel ts net = .ok (net2, ts2) →
    ∀ ad ∈ net2.attribute_definitions, isRelObjectType ad.object_type = false := by
  induction fuel with
  | zero =>
    intro ts net net2 ts2 hinv h
    unfold parseLoop at h
    simp only [Except.ok.injEq, Prod.mk.injEq] at h
    obtain ⟨rfl, rfl⟩ := h
    exact hinv
  | succ f ih =>
    intro ts net net2 ts2 hinv h
    unfold parseLoop at h
    by_cases h0 : (cur ts).type = .END_OF_FILE
    · rw [if_pos h0] at h
      simp only [Except.ok.injEq, Prod.mk.injEq] at h
      obtain ⟨rfl, rfl⟩ := h
      exact hinv
    · rw [if_neg h0] at h
      by_cases h1 : (cur ts).type = .VAL_TABLE_
      · rw [if_pos h1] at h
        rcases hx1 : parseValueTable ts with e | w
        · rw [hx1] at h
          exact absurd h (by simp)
        · obtain ⟨y, ts3⟩ := w
          simp only [hx1] at h
          refine ih _ _ _ _ ?_ h
          exact hinv
      · rw [if_neg h1] at h
        by_cases h2 : (cur ts).type = .BO_
        · rw [if_pos h2] at h
          rcases hx2 : parseMessage ts with e | w
          · rw [hx2] at h
            exact absurd h (by simp)
          · obtain ⟨y, ts3⟩ := w
            simp only [hx2] at h
            refine ih _ _ _ _ ?_ h
            exact hinv
        · rw [if_neg h2] at h
          by_cases h3 : (cur ts).type = .CM_
          · rw [if_pos h3] at h
            rcases hx3 : parseComment ts with e | w
            · rw [hx3] at h
              exact absurd h (by simp)
            · obtain ⟨y, ts3⟩ := w
              simp only [hx3] at h
              refine ih _ _ _ _ ?_ h
              exact hinv
          · rw [if_neg h3] at h
            by_cases h4 : (cur ts).type = .BA_DEF_
            · rw [if_pos h4] at h
              rcases hx4 : parseAttributeDefinition ts with e | w
              · rw [hx4] at h
                exact absurd h (by simp)
              · obtain ⟨y, ts3⟩ := w
                simp only [hx4] at h
                by_cases henv : y.object_type = .EnvironmentVariable
                · rw [if_pos henv] at h
                  refine ih _ _ _ _ ?_ h
                  exact hinv
                · rw [if_neg henv] at h
                  refine ih _ _ _ _ ?_ h
                  intro x hx
                  rcases List.mem_append.mp hx with hm | hm
                  · exact hinv x hm
                  · simp only [List.mem_singleton] at hm
                    subst hm
                    exact parseAttributeDefinition_not_rel _ _ _ hx4
            · rw [if_neg h4] at h
              by_cases h5 : (cur ts).type = .BA_
              · rw [if_pos h5] at h
                rcases hx5 : parseAttributeValue ts with e | w
                · rw [hx5] at h
                  exact absurd h (by simp)
                · obtain ⟨y, ts3⟩ := w
                  simp only [hx5] at h
                  refine ih _ _ _ _ ?_ h
                  exact hinv
              · rw [if_neg h5] at h
                by_cases h6 : (cur ts).type = .BO_TX_BU_
                · rw [if_pos h6] at h
                  rcases hx6 : parseMessageTransmitter ts with e | w
                  · rw [hx6] at h
                    exact absurd h (by simp)
                  · obtain ⟨y, ts3⟩ := w
                    simp only [hx6] at h
                    refine ih _ _ _ _ ?_ h
                    exact hinv
                · rw [if_neg h6] at h
                  by_cases h7 : (cur ts).type = .SG_MUL_VAL_
                  · rw [if_pos h7] at h
                    rcases hx7 : parseSignalMultiplexerValue ts with e | w
                    · rw [hx7] at h
                      exact absurd h (by simp)
                    · obtain ⟨y, ts3⟩ := w
                      simp only [hx7] at h
                      refine ih _ _ _ _ ?_ h
                      exact hinv
                  · rw [if_neg h7] at h
                    by_cases h8 : (cur ts).type = .VAL_
                    · rw [if_pos h8] at h
                      rcases hx8 : parseValueDescription ts with e | w
                      · rw [hx8] at h
                        exact absurd h (by simp)
                      · obtain ⟨y, ts3⟩ := w
                        simp only [hx8] at h
                        refine ih _ _ _ _ ?_ h
                        exact hinv
                    · rw [if_neg h8] at h
                      by_cases h9 : (cur ts).type = .BA_DEF_DEF_
                      · rw [if_pos h9] at h
                        rcases hx9 : parseAttributeDefault ts with e | w
                        · rw [hx9] at h
                          exact absurd h (by simp)
                        · obtain ⟨y, ts3⟩ := w
                          simp only [hx9] at h
                          refine ih _ _ _ _ ?_ h
                          exact hinv
                      · rw [if_neg h9] at h
                        by_cases h10 : (cur ts).type = .SIG_GROUP_
                        · rw [if_pos h10] at h
                          rcases hx10 : parseSignalGroup ts with e | w
                          · rw [hx10] at h
                            exact absurd h (by simp)
                          · obtain ⟨y, ts3⟩ := w
                            simp only [hx10] at h
                            refine ih _ _ _ _ ?_ h
                            exact hinv
                        · rw [if_neg h10] at h
                          by_cases h11 : (cur ts).type = .SIG_VALTYPE_
                          · rw [if_pos h11] at h
                            rcases hx11 : parseSignalExtendedValueType ts with e | w
                            · rw [hx11] at h
                              exact absurd h (by simp)
                            · obtain ⟨y, ts3⟩ := w
                              simp only [hx11] at h
                              refine ih _ _ _ _ ?_ h
                              exact hinv
                          · rw [if_neg h11] at h
                            by_cases h12 : (cur ts).type = .SGTYPE_
                            · rw [if_pos h12] at h
                              rcases hx12 : parseSignalType ts with e | w
                              · rw [hx12] at h
                                exact absurd h (by simp)
                              · obtain ⟨y, ts3⟩ := w
                                simp only [hx12] at h
                                refine ih _ _ _ _ ?_ h
                                exact hinv
                            · rw [if_neg h12] at h
                              refine ih _ _ _ _ ?_ h
                              exact hinv

/-- C6 (counterexample): a well-formed BA_DEF_REL_ statement parses without
error yet leaves no attribute definition in the AST at all: the statement is
silently skipped, not decoded into a Rel variant. -/
theorem claimC6_rel_statement_skipped :
    (parse c6Input).toOption.map (fun n => n.attribute_definitions)
      = some [] := by decide

/-- C6 (amended): the statement dispatcher has no case for the REL keywords,
so a successful parse never yields an attribute definition whose object type
is one of the Rel variants; REL statements are skipped by the
advance-and-ignore default. -/
theorem claimC6_no_rel_in_ast (input : String) (net : AST.Network)
    (h : parse input = .ok net) :
    net.attribute_definitions.all
      (fun ad => !isRelObjectType ad.object_type) = true := by
  rw [List.all_eq_true]
  intro ad had
  suffices hx : isRelObjectType ad.object_type = false by simp [hx]
  unfold parse at h
  simp only [bind, Except.bind] at h
  rcases hv : parseVersion (tokenize input) with e | wv
  · rw [hv] at h
    exact absurd h (by simp)
  obtain ⟨ver, ts1⟩ := wv
  simp only [hv] at h
  by_cases hns : (cur ts1).type = .NS_
  · rw [if_pos hns] at h
    rcases hs : parseNewSymbols ts1 with e | ws
    · rw [hs] at h
      exact absurd h (by simp)
    obtain ⟨syms, ts2⟩ := ws
    simp only [hs] at h
    rcases hb : parseBitTiming ts2 with e | wb
    · rw [hb] at h
      exact absurd h (by simp)
    obtain ⟨bt, ts3⟩ := wb
    simp only [hb] at h
    rcases hn : parseNodes ts3 with e | wn
    · rw [hn] at h
      exact absurd h (by simp)
    obtain ⟨nodes, ts4⟩ := wn
    simp only [hn] at h
    split at h
    · exact absurd h (by simp)
    · rename_i x v heq
      simp only [Except.ok.injEq] at h
      subst h
      exact parseLoop_not_rel ts4.length ts4 _ v.1 v.2
        (fun x hx => absurd hx (by simp)) heq ad had
  · rw [if_neg hns] at h
    simp only [pure, Except.pure] at h
    rcases hb : parseBitTiming ts1 with e | wb
    · rw [hb] at h
      exact absurd h (by simp)
    obtain ⟨bt, ts3⟩ := wb
    simp only [hb] at h
    rcases hn : parseNodes ts3 with e | wn
    · rw [hn] at h
      exact absurd h (by simp)
    obtain ⟨nodes, ts4⟩ := wn
    simp only [hn] at h
    split at h
    · exact absurd h (by simp)
    · rename_i x v heq
      simp only [Except.ok.injEq] at h
      subst h
      exact parseLoop_not_rel ts4.length ts4 _ v.1 v.2
        (fun x hx => absurd hx (by simp)) heq ad had

theorem except_ok_of_toOption {e : Type} {a : Type} (x : Except e a) (v : a)
    (h : x.toOption = some v) : x = .ok v := by
  cases x with
  | ok w => simpa [Except.toOption] using congrArg (fun o => o.getD w) h
  | error err => simp [Except.toOption] at h

theorem claimC6_no_rel_in_ast_witness :
    c6Net.attribute_definitions.all
      (fun ad => !isRelObjectType ad.object_type) = true :=
  claimC6_no_rel_in_ast c6Input c6Net (except_ok_of_toOption _ _ (by decide))

end DbcTiny
